import Mathlib

/-!
# LibrarySpot server: a shallow embedding for verification

This file embeds the core of the LibrarySpot backend (server/index.js and
its variant server entry point) in Lean 4 and proves properties about it:

* the TTL + single-flight cache around `getAllLibraryData`, modelled as an
  explicit state machine whose atomic steps correspond to the synchronous
  segments of the JavaScript code between `await` points (the runtime is
  single-threaded and cooperative, so a segment with no `await` inside it
  executes atomically);
* the LibCal hours widget parser `parseRowHours` together with its helpers
  (`parseTimeToDecimal`, the regex scanners for `tr`, `td` and `span`
  elements), embedded as total functions over `List Char`;
* the weekly hours cache around `fetchLibCalHours` (TTL only, no in-flight
  deduplication), modelled as its own state machine;
* the two source adapters `fetchOsuApi` and `scrapeLibCal`, modelled as
  functions of an explicit environment describing the outcomes of their
  network / browser effects, plus the orchestrating fan-out over the
  configured libraries;
* the rendered-widget slot deduplication logic of the `page.evaluate`
  callback inside `scrapeLibCal`.

JavaScript integers and timestamps are modelled as `Nat` (all quantities
involved are non-negative; `Date.now()` is a positive millisecond count).
Decimal hour values (`hour + minute / 60`) are modelled as `ℚ`.
JavaScript objects used as keyed dictionaries are modelled as association
lists whose lookup finds the first binding.
-/

namespace LibrarySpot

/-! ## Association lists (JS objects / Maps used as dictionaries) -/

/-- First-match lookup in an association list; models `obj[key]` /
`map.get(key)` on dictionaries that never hold duplicate keys. -/
def alookup {α : Type} {β : Type} [DecidableEq α] : List (α × β) → α → Option β
  | [], _ => none
  | (a, b) :: l, k => if a = k then some b else alookup l k

/-- Models `obj[key] = v` / `map.set(key, v)`: replaces any existing
binding for the key, otherwise adds one.  (We add in front; only `alookup`
is ever used to read these lists, for which this is equivalent.) -/
def ainsert {α : Type} {β : Type} [DecidableEq α] (l : List (α × β)) (k : α) (v : β) :
    List (α × β) :=
  (k, v) :: l.filter (fun p => p.1 ≠ k)

/-- Models `map.delete(key)` / `delete obj[key]`. -/
def aerase {α : Type} {β : Type} [DecidableEq α] (l : List (α × β)) (k : α) :
    List (α × β) :=
  l.filter (fun p => p.1 ≠ k)

@[simp] theorem alookup_nil {α β : Type} [DecidableEq α] (k : α) :
    alookup ([] : List (α × β)) k = none := rfl

@[simp] theorem alookup_cons {α β : Type} [DecidableEq α] (a : α) (b : β) (l : List (α × β))
    (k : α) : alookup ((a, b) :: l) k = if a = k then some b else alookup l k := rfl

@[simp] theorem alookup_ainsert_self {α β : Type} [DecidableEq α] (l : List (α × β))
    (k : α) (v : β) : alookup (ainsert l k v) k = some v := by
  simp [ainsert]

theorem alookup_aerase_self {α β : Type} [DecidableEq α] (l : List (α × β)) (k : α) :
    alookup (aerase l k) k = none := by
  induction l with
  | nil => rfl
  | cons p l ih =>
    obtain ⟨a, b⟩ := p
    by_cases h : a = k <;> simp [aerase, h] at ih ⊢ <;> simpa [aerase] using ih

theorem aerase_of_alookup_none {α β : Type} [DecidableEq α] (l : List (α × β)) (k : α)
    (h : alookup l k = none) : aerase l k = l := by
  induction l with
  | nil => rfl
  | cons p l ih =>
    obtain ⟨a, b⟩ := p
    by_cases hak : a = k
    · simp [hak] at h
    · simp [hak] at h
      simp [aerase, hak] at ih ⊢
      exact ih h

/-! ## Character and string helpers

The JavaScript code works with regular expressions over strings.  We embed
the relevant string processing over `List Char`.  Case-insensitive matching
(`/i` regex flags, `toLowerCase`) goes through `Char.toLower`. -/

/-- `s.toLowerCase()` on a character list. -/
def toLowerL (s : List Char) : List Char := s.map Char.toLower

/-- Case-sensitive `String.prototype.includes` (substring containment). -/
def containsSub : List Char → List Char → Bool
  | _, [] => true
  | [], _ :: _ => false
  | c :: s, pat => (pat.isPrefixOf (c :: s)) || containsSub s pat

/-- Case-insensitive prefix test (used for `/i` regex literals). -/
def isPrefixOfCI : List Char → List Char → Bool
  | [], _ => true
  | _ :: _, [] => false
  | p :: ps, c :: cs => (p.toLower == c.toLower) && isPrefixOfCI ps cs

/-- Case-insensitive substring containment. -/
def containsSubCI : List Char → List Char → Bool
  | _, [] => true
  | [], _ :: _ => false
  | c :: s, pat => isPrefixOfCI pat (c :: s) || containsSubCI s pat

/-- JS whitespace for `trim` (the characters that occur in practice). -/
def isWsChar (c : Char) : Bool :=
  c = ' ' || c = '\t' || c = '\n' || c = '\r'

/-- `String.prototype.trim`. -/
def trimL (s : List Char) : List Char :=
  ((s.dropWhile isWsChar).reverse.dropWhile isWsChar).reverse

/-- Digit test and value. -/
def isDigitCh (c : Char) : Bool := '0' ≤ c && c ≤ '9'

def digitVal (c : Char) : Nat := c.toNat - '0'.toNat

/-- Value of a digit string (used for `parseInt` on strings that are known
to be all digits at call sites). -/
def digitsVal (s : List Char) : Nat :=
  s.foldl (fun acc c => acc * 10 + digitVal c) 0

/-- `parseInt`: value of the maximal digit prefix, or `none` when the
string does not start with a digit (JS `NaN`). -/
def parseIntL (s : List Char) : Option Nat :=
  match s.takeWhile isDigitCh with
  | [] => none
  | ds => some (digitsVal ds)

/-- Two-digit zero padding (`String(x).padStart(2, "0")` for `x < 100`). -/
def pad2 (n : Nat) : List Char :=
  if n < 10 then '0' :: (toString n).data else (toString n).data

/-- Four-digit year rendering (years in scope are 1000–9999). -/
def pad4 (n : Nat) : List Char := (toString n).data

/-! ## Calendar dates

`new Date("YYYY-MM-DDT12:00:00")`, `setDate`, `getDay` and
`toISOString().split("T")[0]` are modelled over explicit civil dates.
Anchoring at local noon means identifying the local calendar date with the
UTC calendar date of `toISOString`, which is exact for any time-zone offset
strictly between -12h and +12h (the deployment uses America/New_York). -/

structure CivilDate where
  year : Nat
  month : Nat
  day : Nat
deriving DecidableEq, Repr

def isLeapYear (y : Nat) : Bool :=
  (y % 4 = 0 && y % 100 ≠ 0) || y % 400 = 0

def daysInMonth (y m : Nat) : Nat :=
  if m = 2 then (if isLeapYear y then 29 else 28)
  else if m = 4 || m = 6 || m = 9 || m = 11 then 30
  else 31

def nextDay (d : CivilDate) : CivilDate :=
  if d.day < daysInMonth d.year d.month then ⟨d.year, d.month, d.day + 1⟩
  else if d.month < 12 then ⟨d.year, d.month + 1, 1⟩
  else ⟨d.year + 1, 1, 1⟩

def prevDay (d : CivilDate) : CivilDate :=
  if 1 < d.day then ⟨d.year, d.month, d.day - 1⟩
  else if 1 < d.month then ⟨d.year, d.month - 1, daysInMonth d.year (d.month - 1)⟩
  else ⟨d.year - 1, 12, 31⟩

/-- `date.setDate(date.getDate() + n)` for `n ≥ 0`. -/
def addDaysC (d : CivilDate) : Nat → CivilDate
  | 0 => d
  | n + 1 => nextDay (addDaysC d n)

/-- `date.setDate(date.getDate() - n)` for `n ≥ 0`. -/
def subDaysC (d : CivilDate) : Nat → CivilDate
  | 0 => d
  | n + 1 => prevDay (subDaysC d n)

/-- Day count since 0000-03-01 in the proleptic Gregorian calendar
(valid for years ≥ 1, the only years in scope). -/
def dayNumber (d : CivilDate) : Nat :=
  let y := if d.month ≤ 2 then d.year - 1 else d.year
  let m := if d.month ≤ 2 then d.month + 12 else d.month
  365 * y + y / 4 - y / 100 + y / 400 + (153 * (m - 3) + 2) / 5 + d.day - 1

/-- `Date.prototype.getDay`: 0 = Sunday … 6 = Saturday.
(`dayNumber 1970-01-01 = 719468`, and that day was a Thursday = 4.) -/
def dayOfWeek (d : CivilDate) : Nat := (dayNumber d + 3) % 7

/-- Strict parse of a `YYYY-MM-DD` string, the only shape the server ever
passes to `new Date(s + "T12:00:00")`; returns `none` exactly when the JS
`Date` would be invalid. -/
def parseDateL (s : List Char) : Option CivilDate :=
  match s with
  | [y1, y2, y3, y4, '-', m1, m2, '-', d1, d2] =>
    if isDigitCh y1 && isDigitCh y2 && isDigitCh y3 && isDigitCh y4 &&
       isDigitCh m1 && isDigitCh m2 && isDigitCh d1 && isDigitCh d2 then
      let y := digitsVal [y1, y2, y3, y4]
      let m := digitsVal [m1, m2]
      let d := digitsVal [d1, d2]
      if 1 ≤ m && m ≤ 12 && 1 ≤ d && d ≤ daysInMonth y m then some ⟨y, m, d⟩
      else none
    else none
  | _ => none

def parseDate? (s : String) : Option CivilDate := parseDateL s.data

/-- `toISOString().split("T")[0]` of a date anchored at local noon. -/
def formatCivil (d : CivilDate) : String :=
  ⟨pad4 d.year ++ '-' :: pad2 d.month ++ '-' :: pad2 d.day⟩

/-- `getMondayOfWeek` from the source: steps the date back to the Monday of
its week (`diff = day === 0 ? -6 : 1 - day`).  Invalid input dates make the
JS function throw inside its caller's `try`; we return `none` there (every
internal call site passes a valid date). -/
def getMondayOfWeek? (dateStr : String) : Option String :=
  match parseDate? dateStr with
  | none => none
  | some d =>
    let dw := dayOfWeek d
    let back := if dw = 0 then 6 else dw - 1
    some (formatCivil (subDaysC d back))

/-! ## The time regex `/(\d{1,2})(?::(\d{2}))?\s*(am|pm)/i`

`timeTokAt` matches the pattern at the start of a character list, with the
same greedy-then-backtrack behaviour as the regex engine (two digits first,
then one; colon group first with it, then without).  `cap` is the captured
text, `rest` what follows the match. -/

structure TimeTok where
  cap : List Char
  hour : Nat
  minute : Nat
  isPm : Bool
  rest : List Char
deriving DecidableEq, Repr

/-- Continue the time pattern after the digit group: optional `:MM`, then
`\s*`, then `am`/`pm` (case-insensitive). -/
def timeTokCore (ds : List Char) (rest : List Char) : Option TimeTok :=
  let tryPeriod : List Char → List Char → Nat → Option TimeTok := fun pre r minu =>
    let ws := r.takeWhile isWsChar
    match r.drop ws.length with
    | a :: m :: r3 =>
      if (a.toLower = 'a' || a.toLower = 'p') && m.toLower = 'm' then
        some ⟨pre ++ ws ++ [a, m], digitsVal ds, minu, a.toLower = 'p', r3⟩
      else none
    | _ => none
  match rest with
  | ':' :: m1 :: m2 :: r =>
    if isDigitCh m1 && isDigitCh m2 then
      tryPeriod (ds ++ ':' :: [m1, m2]) r (digitsVal [m1, m2]) <|>
        tryPeriod ds rest 0
    else tryPeriod ds rest 0
  | _ => tryPeriod ds rest 0

/-- Match the time pattern at the start of a list (`\d{1,2}` is greedy). -/
def timeTokAt : List Char → Option TimeTok
  | [] => none
  | [d1] => if isDigitCh d1 then timeTokCore [d1] [] else none
  | d1 :: d2 :: r =>
    if isDigitCh d1 then
      if isDigitCh d2 then timeTokCore [d1, d2] r <|> timeTokCore [d1] (d2 :: r)
      else timeTokCore [d1] (d2 :: r)
    else none

/-- First match of the time pattern anywhere in the list (regex scan). -/
def findTimeTok : List Char → Option TimeTok
  | [] => none
  | c :: s => timeTokAt (c :: s) <|> findTimeTok s

/-- The source's `hour + minute / 60`, written with the primitive rational
constructor so that concrete runs reduce inside the kernel;
`decimalHours_spec` below proves it equal to the literal formula. -/
def decimalHours (hour minute : Nat) : ℚ := mkRat (hour * 60 + minute) 60

theorem decimalHours_spec (hour minute : Nat) :
    decimalHours hour minute = (hour : ℚ) + (minute : ℚ) / 60 := by
  unfold decimalHours
  rw [Rat.mkRat_eq_div]
  push_cast
  ring

/-- `parseTimeToDecimal` from the source: `"7:30am"` ↦ `7.5`, folding the
12-hour period (`pm` and hour ≠ 12 adds 12; `am` and hour = 12 becomes 0);
`null` for a falsy string, `"closed"`, or no match. -/
def parseTimeToDecimal (timeStr : String) : Option ℚ :=
  if timeStr.data.isEmpty then none
  else if toLowerL timeStr.data = "closed".data then none
  else match findTimeTok timeStr.data with
    | none => none
    | some t =>
      let hour := if t.isPm && t.hour ≠ 12 then t.hour + 12
                  else if !t.isPm && t.hour = 12 then 0
                  else t.hour
      some (decimalHours hour t.minute)

/-! ## The range regex
`/(time)\s*(?:&ndash;|–|-)\s*(time)/i` used on the contents of the
`s-lc-time` span.  (`server/index.js` stores the en-dash alternative as a
mojibake rendering of the same UTF-8 en-dash; the variant entry point has
it verbatim, which is the form embedded here.) -/

/-- Match one of the range separators at the start of the list, returning
the remainder. -/
def sepAt (s : List Char) : Option (List Char) :=
  if isPrefixOfCI "&ndash;".data s then some (s.drop 7)
  else match s with
    | '–' :: r => some r
    | '-' :: r => some r
    | _ => none

/-- Match the full range pattern at the start of the list, returning the
two captured time groups. -/
def rangeAt (s : List Char) : Option (List Char × List Char) :=
  match timeTokAt s with
  | none => none
  | some t1 =>
    let r1 := t1.rest.dropWhile isWsChar
    match sepAt r1 with
    | none => none
    | some r2 =>
      match timeTokAt (r2.dropWhile isWsChar) with
      | none => none
      | some t2 => some (t1.cap, t2.cap)

/-- First match of the range pattern anywhere in the list. -/
def findRange : List Char → Option (List Char × List Char)
  | [] => none
  | c :: s => rangeAt (c :: s) <|> findRange s

/-- `.replace(/(am|pm)/gi, m => m.toUpperCase())`. -/
def upAmPm : List Char → List Char
  | [] => []
  | [c] => [c]
  | c1 :: c2 :: rest =>
    if (c1.toLower = 'a' || c1.toLower = 'p') && c2.toLower = 'm' then
      (if c1.toLower = 'a' then 'A' else 'P') :: 'M' :: upAmPm rest
    else c1 :: upAmPm (c2 :: rest)

/-! ## HTML scanners for `tr`, `td` and `span` elements -/

/-- Split at the first occurrence of a character: `some (before, after)`. -/
def splitAtChar (c : Char) : List Char → Option (List Char × List Char)
  | [] => none
  | x :: s =>
    if x = c then some ([], s)
    else match splitAtChar c s with
      | some (a, b) => some (x :: a, b)
      | none => none

/-- Split at the first case-insensitive occurrence of a pattern:
`some (before, after)`, the pattern itself dropped. -/
def splitUntilCI (pat : List Char) : List Char → Option (List Char × List Char)
  | [] => none
  | c :: s =>
    if isPrefixOfCI pat (c :: s) then some ([], (c :: s).drop pat.length)
    else match splitUntilCI pat s with
      | some (a, b) => some (c :: a, b)
      | none => none

/-- Remainder after the first case-insensitive occurrence of a pattern. -/
def dropToSubCI (pat : List Char) : List Char → Option (List Char)
  | [] => none
  | c :: s =>
    if isPrefixOfCI pat (c :: s) then some ((c :: s).drop pat.length)
    else dropToSubCI pat s

/-- Does a span tag's attribute text match `[^>]*class="CLS[^"]*"[^>]*`?
Since the attribute text runs up to the first `>`, this holds iff it
contains `class="CLS` (case-insensitively) with a closing quote somewhere
after the first such occurrence. -/
def attrsOkCI (cls attrs : List Char) : Bool :=
  match dropToSubCI ("class=\"".data ++ cls) attrs with
  | some rest => rest.contains '\"'
  | none => false

/-- `content.match(/<span[^>]*class="CLS[^"]*"[^>]*>([\s\S]*?)<\/span>/i)`:
first matching span's captured content. -/
def matchSpanClass (cls : List Char) : List Char → Option (List Char)
  | [] => none
  | c :: s =>
    (if isPrefixOfCI "<span".data (c :: s) then
      match splitAtChar '>' ((c :: s).drop 5) with
      | none => none
      | some (attrs, rest) =>
        if attrsOkCI cls attrs then (splitUntilCI "</span>".data rest).map (·.1)
        else none
     else none) <|> matchSpanClass cls s

/-- All matches of `/<tr[^>]*>([\s\S]*?)<\/tr>/gi`: list of
(full match, captured content) pairs.  The fuel argument only bounds the
scan; `length + 1` always suffices since every step consumes a character. -/
def trRowsF : Nat → List Char → List (List Char × List Char)
  | 0, _ => []
  | _, [] => []
  | fuel + 1, c :: s =>
    match (if isPrefixOfCI "<tr".data (c :: s) then
            match splitAtChar '>' ((c :: s).drop 3) with
            | none => none
            | some (attrs, rest) =>
              match splitUntilCI "</tr>".data rest with
              | none => none
              | some (content, after) =>
                some ((c :: s).take (3 + attrs.length + 1 + content.length + 5),
                      content, after)
           else none) with
    | some (full, content, after) => (full, content) :: trRowsF fuel after
    | none => trRowsF fuel s

def trRows (s : List Char) : List (List Char × List Char) := trRowsF (s.length + 1) s

/-- All matches of `/<td[^>]*>([\s\S]*?)<\/td>/gi`: captured contents. -/
def tdCellsF : Nat → List Char → List (List Char)
  | 0, _ => []
  | _, [] => []
  | fuel + 1, c :: s =>
    match (if isPrefixOfCI "<td".data (c :: s) then
            match splitAtChar '>' ((c :: s).drop 3) with
            | none => none
            | some (_, rest) => splitUntilCI "</td>".data rest
           else none) with
    | some (content, after) => content :: tdCellsF fuel after
    | none => tdCellsF fuel s

def tdCells (s : List Char) : List (List Char) := tdCellsF (s.length + 1) s

/-- The row whose first `td` content contains `rowName` (first match wins);
returns the full row match, as in the source. -/
def findTargetRow (html rowName : List Char) : Option (List Char) :=
  (trRows html).findSome? fun fc =>
    match (tdCells fc.2).head? with
    | some td1 => if containsSub td1 rowName then some fc.1 else none
    | none => none

/-! ## Per-cell classification (`parseRowHours` body) -/

/-- One day's parsed hours.  JS field `open` is `openH` here (`open` is a
Lean keyword), `close` is `closeH`.  `closed` and `note` are absent in JS
unless set; the defaults encode absence. -/
structure DayHours where
  openH : Option ℚ
  closeH : Option ℚ
  closed : Bool := false
  openStr : String
  closeStr : String
  note : Option String := none
deriving DecidableEq, Repr

/-- First match of `/\(([^)]+)\)/`: a parenthesised non-empty run without a
closing parenthesis inside. -/
def parenNoteL : List Char → Option (List Char)
  | [] => none
  | c :: s =>
    if c = '(' then
      let run := s.takeWhile (fun x => x ≠ ')')
      if !run.isEmpty && (s.drop run.length).head? = some ')' then some run
      else parenNoteL s
    else parenNoteL s

/-- Classification of one day cell, exactly the `if`/`else` chain of
`parseRowHours`:
1. a cell containing `s-lc-closed` is closed;
2. else an `s-lc-timetxt` span whose text contains `24 hour` gives
   `{open: 0, close: 24}` with the parenthetical note, if any;
3. else an `s-lc-time` span whose text contains a recognizable time range
   gives the parsed decimal hours, a close of exactly 0 becoming 24;
4. else `{open: 0, close: 24}`, labelled `24 Hours` when the `s-lc-time`
   span was present but unparseable and `Unknown` when it was absent. -/
def classifyCell (cell : List Char) : DayHours :=
  if containsSub cell "s-lc-closed".data then
    { openH := none, closeH := none, closed := true, openStr := "Closed", closeStr := "" }
  else
    match matchSpanClass "s-lc-timetxt".data cell with
    | some txt =>
      if containsSub (toLowerL txt) "24 hour".data then
        let noteText := trimL txt
        { openH := some 0, closeH := some 24, openStr := "24 Hours", closeStr := "",
          note := (parenNoteL noteText).map (fun r => String.mk (trimL r)) }
      else classifyCellTime cell
    | none => classifyCellTime cell
where
  /-- The `s-lc-time` branch shared by the two `else` paths. -/
  classifyCellTime (cell : List Char) : DayHours :=
    match matchSpanClass "s-lc-time".data cell with
    | some tc =>
      match findRange tc with
      | some (g1, g2) =>
        let openStr := String.mk (upAmPm (trimL g1))
        let closeStr := String.mk (upAmPm (trimL g2))
        let openTime := parseTimeToDecimal openStr
        let closeTime0 := parseTimeToDecimal closeStr
        let closeTime := if closeTime0 = some 0 then some 24 else closeTime0
        { openH := openTime, closeH := closeTime, openStr := openStr, closeStr := closeStr }
      | none =>
        { openH := some 0, closeH := some 24, openStr := "24 Hours", closeStr := "" }
    | none =>
      { openH := some 0, closeH := some 24, openStr := "Unknown", closeStr := "" }

/-- The per-day loop of `parseRowHours`: cells 1‥7 of the row, keyed by the
Monday date plus the cell offset. -/
def buildWeek (cells : List (List Char)) (md : CivilDate) : List (String × DayHours) :=
  ((cells.drop 1).take 7).mapIdx fun j c => (formatCivil (addDaysC md j), classifyCell c)

/-- `parseRowHours(html, rowName, mondayDate)`.  Returns `none` when no row
matches (the source's `null`).  An unparseable `mondayDate` would make the
JS loop throw (callers never pass one; internal callers always pass the
output of `getMondayOfWeek`); it is mapped to `none` here. -/
def parseRowHours (html rowName mondayDate : String) : Option (List (String × DayHours)) :=
  match findTargetRow html.data rowName.data with
  | none => none
  | some row =>
    match parseDate? mondayDate with
    | none => none
    | some md => some (buildWeek (tdCells row) md)

/-! ## The `getAllLibraryData` TTL + single-flight cache

`getAllLibraryData(dateStr, {force})` runs on a single-threaded cooperative
runtime: the segment from entry up to the first `await` executes atomically.
That segment either (a) returns a fresh cached entry, (b) registers the
caller as a waiter on the in-flight population for the key, or (c) creates
the population promise (whose body runs synchronously up to its
`Promise.all`, recording `startedAt`), stores it in `inFlight`, and awaits
it.  A population's settlement (the `Promise.all` resolving or rejecting,
the cache write, the `finally` that deletes the in-flight marker, and the
resumption of all waiters) is likewise one atomic step: all of these are
microtasks that drain before any new request (a macrotask) can run.

The model keeps a log of started populations (`pops`, with `nextPop` ids)
so that "exactly one population (one round of adapter fetches) is started"
is a statement about the state. -/

/-- `Except` has no `DecidableEq` instance in the library; provide one. -/
instance exceptDecEq {ε α : Type} [DecidableEq ε] [DecidableEq α] :
    DecidableEq (Except ε α) := fun a b =>
  match a, b with
  | Except.ok x, Except.ok y =>
    if h : x = y then isTrue (by rw [h]) else isFalse (by intro hc; cases hc; exact h rfl)
  | Except.error x, Except.error y =>
    if h : x = y then isTrue (by rw [h]) else isFalse (by intro hc; cases hc; exact h rfl)
  | Except.ok _, Except.error _ => isFalse (by intro hc; cases hc)
  | Except.error _, Except.ok _ => isFalse (by intro hc; cases hc)

structure CacheEntry (V : Type) where
  data : V
  lastUpdated : Nat
  lastFetchDurationMs : Nat
deriving DecidableEq, Repr

/-- The object returned to one caller of `getAllLibraryData`.  A cache hit
returns `{data, fetchedAt, cacheHit: true}`; the populating caller returns
`{data, fetchedAt, fetchDurationMs}`; a deduplicated waiter returns
`{...result, cacheHit: false, deduped: true}`.  Absent JS fields are the
defaults. -/
structure CallReturn (V : Type) where
  data : V
  fetchedAt : Nat
  fetchDurationMs : Option Nat := none
  cacheHit : Bool := false
  deduped : Bool := false
deriving DecidableEq, Repr

structure PopInfo where
  key : String
  startedAt : Nat
deriving DecidableEq, Repr

/-- One suspended caller: awaiting population `popId`; `isRunner` marks the
caller that started it (its return value lacks the `deduped` flag). -/
structure WaitRec where
  caller : Nat
  popId : Nat
  isRunner : Bool
deriving DecidableEq, Repr

structure SysState (V : Type) where
  dataCache : List (String × CacheEntry V)
  inFlight : List (String × Nat)
  nextPop : Nat
  pops : List (Nat × PopInfo)
  waiting : List WaitRec
  finished : List (Nat × Except String (CallReturn V))
deriving DecidableEq, Repr

def initState (V : Type) : SysState V := ⟨[], [], 0, [], [], []⟩

/-- `const cacheKey = dateStr || 'today'` (the empty string is falsy). -/
def cacheKeyOf (dateStr : Option String) : String :=
  match dateStr with
  | some d => if d = "" then "today" else d
  | none => "today"

/-- `entry?.data && entry?.lastUpdated && (now - entry.lastUpdated) < CACHE_TTL`.
`data` is an array, hence truthy; `lastUpdated` is truthy iff nonzero.  A
JS negative difference (`now < lastUpdated`) is `< ttl`; truncated `Nat`
subtraction gives `0 < ttl` there, which agrees for the positive TTLs in
use. -/
def isFreshEntry {V : Type} (e : CacheEntry V) (now ttl : Nat) : Bool :=
  (decide (e.lastUpdated ≠ 0)) && decide (now - e.lastUpdated < ttl)

def freshB {V : Type} (cache : List (String × CacheEntry V)) (k : String)
    (now ttl : Nat) : Bool :=
  match alookup cache k with
  | some e => isFreshEntry e now ttl
  | none => false

/-- The non-hit path of `getAllLibraryData`: join the in-flight population
for the key if there is one, otherwise start one (recording `startedAt`
now, registering the in-flight marker, and awaiting it as runner). -/
def arriveMiss {V : Type} (s : SysState V) (caller : Nat) (cacheKey : String)
    (now : Nat) : SysState V :=
  match alookup s.inFlight cacheKey with
  | some p => { s with waiting := ⟨caller, p, false⟩ :: s.waiting }
  | none =>
    { s with
      nextPop := s.nextPop + 1
      pops := (s.nextPop, ⟨cacheKey, now⟩) :: s.pops
      inFlight := (cacheKey, s.nextPop) :: s.inFlight
      waiting := ⟨caller, s.nextPop, true⟩ :: s.waiting }

/-- The atomic entry segment of `getAllLibraryData(dateStr, {force})`. -/
def arrive {V : Type} (ttl : Nat) (s : SysState V) (caller : Nat)
    (dateStr : Option String) (force : Bool) (now : Nat) : SysState V :=
  let cacheKey := cacheKeyOf dateStr
  match alookup s.dataCache cacheKey with
  | some e =>
    if !force && isFreshEntry e now ttl then
      { s with finished := (caller,
          Except.ok { data := e.data, fetchedAt := e.lastUpdated, cacheHit := true })
          :: s.finished }
    else arriveMiss s caller cacheKey now
  | none => arriveMiss s caller cacheKey now

/-- What one suspended caller receives when the population it awaits
settles: on success the shared result object (the runner's lacks the
`deduped` flag, a waiter's spread adds `cacheHit: false, deduped: true`),
on failure the shared rejection. -/
def popOutcome {V : Type} (res : Except String V) (now dur : Nat) (w : WaitRec) :
    Nat × Except String (CallReturn V) :=
  (w.caller,
    match res with
    | Except.ok v =>
      Except.ok { data := v, fetchedAt := now, fetchDurationMs := some dur,
                  cacheHit := false, deduped := !w.isRunner }
    | Except.error e => Except.error e)

/-- The atomic settlement of population `p`: on success write the cache
entry with `lastUpdated` = the completion time and resolve every waiter
with the result; on failure write nothing and reject every waiter with the
error.  In both cases the `finally` removes the in-flight marker. -/
def complete {V : Type} (s : SysState V) (p : Nat) (res : Except String V)
    (now : Nat) : SysState V :=
  match alookup s.pops p with
  | none => s
  | some info =>
    if alookup s.inFlight info.key = some p then
      let mine := s.waiting.filter (fun w => decide (w.popId = p))
      { dataCache :=
          match res with
          | Except.ok v => ainsert s.dataCache info.key ⟨v, now, now - info.startedAt⟩
          | Except.error _ => s.dataCache
        inFlight := aerase s.inFlight info.key
        nextPop := s.nextPop
        pops := s.pops
        waiting := s.waiting.filter (fun w => decide (¬ w.popId = p))
        finished := mine.map (popOutcome res now (now - info.startedAt)) ++ s.finished }
    else s

inductive Act (V : Type) where
  | arrive (caller : Nat) (dateStr : Option String) (force : Bool) (now : Nat)
  | complete (p : Nat) (res : Except String V) (now : Nat)
deriving DecidableEq, Repr

def step {V : Type} (ttl : Nat) (s : SysState V) : Act V → SysState V
  | Act.arrive c ds f t => arrive ttl s c ds f t
  | Act.complete p r t => complete s p r t

def run {V : Type} (ttl : Nat) : SysState V → List (Act V) → SysState V
  | s, [] => s
  | s, a :: acts => run ttl (step ttl s a) acts

/-! ### Step lemmas for the cache machine -/

theorem arrive_hit {V : Type} (ttl : Nat) (s : SysState V) (c : Nat)
    (ds : Option String) (now : Nat) (e : CacheEntry V)
    (hl : alookup s.dataCache (cacheKeyOf ds) = some e)
    (hf : isFreshEntry e now ttl = true) :
    arrive ttl s c ds false now
      = { s with finished := (c,
            Except.ok { data := e.data, fetchedAt := e.lastUpdated, cacheHit := true })
            :: s.finished } := by
  unfold arrive
  simp only [hl, hf, Bool.not_false, Bool.true_and, if_true]

theorem freshB_some {V : Type} (cache : List (String × CacheEntry V)) (k : String)
    (now ttl : Nat) (e : CacheEntry V) (hl : alookup cache k = some e) :
    freshB cache k now ttl = isFreshEntry e now ttl := by
  unfold freshB
  rw [hl]

theorem arrive_miss_eq {V : Type} (ttl : Nat) (s : SysState V) (c : Nat)
    (ds : Option String) (force : Bool) (now : Nat)
    (h : force = true ∨ freshB s.dataCache (cacheKeyOf ds) now ttl = false) :
    arrive ttl s c ds force now = arriveMiss s c (cacheKeyOf ds) now := by
  unfold arrive
  rcases hl : alookup s.dataCache (cacheKeyOf ds) with _ | e
  · simp [hl]
  · rcases h with h | h
    · simp [hl, h]
    · rw [freshB_some _ _ _ _ _ hl] at h
      simp [hl, h]

theorem arriveMiss_joins {V : Type} (s : SysState V) (c : Nat) (k : String)
    (now p : Nat) (hif : alookup s.inFlight k = some p) :
    arriveMiss s c k now = { s with waiting := ⟨c, p, false⟩ :: s.waiting } := by
  unfold arriveMiss
  rw [hif]

theorem arriveMiss_populates {V : Type} (s : SysState V) (c : Nat) (k : String)
    (now : Nat) (hif : alookup s.inFlight k = none) :
    arriveMiss s c k now
      = { s with
          nextPop := s.nextPop + 1
          pops := (s.nextPop, ⟨k, now⟩) :: s.pops
          inFlight := (k, s.nextPop) :: s.inFlight
          waiting := ⟨c, s.nextPop, true⟩ :: s.waiting } := by
  unfold arriveMiss
  rw [hif]

/-- The state reached once a population for `k` has been started at `t₁`
from `s₀` and the callers in `ws` are suspended on it. -/
def joined {V : Type} (s₀ : SysState V) (k : String) (t₁ : Nat)
    (ws : List WaitRec) : SysState V :=
  { dataCache := s₀.dataCache
    inFlight := (k, s₀.nextPop) :: s₀.inFlight
    nextPop := s₀.nextPop + 1
    pops := (s₀.nextPop, ⟨k, t₁⟩) :: s₀.pops
    waiting := ws ++ s₀.waiting
    finished := s₀.finished }

/-- A batch of `getAllLibraryData` calls, as trace actions. -/
def arrivalActs (V : Type) (ds : Option String) (calls : List (Nat × Bool × Nat)) :
    List (Act V) :=
  calls.map fun c => Act.arrive c.1 ds c.2.1 c.2.2

theorem arrive_first {V : Type} (ttl : Nat) (s₀ : SysState V) (c : Nat)
    (ds : Option String) (f : Bool) (t₁ : Nat)
    (hif : alookup s₀.inFlight (cacheKeyOf ds) = none)
    (h₁ : freshB s₀.dataCache (cacheKeyOf ds) t₁ ttl = false) :
    arrive ttl s₀ c ds f t₁
      = joined s₀ (cacheKeyOf ds) t₁ [⟨c, s₀.nextPop, true⟩] := by
  rw [arrive_miss_eq _ _ _ _ _ _ (Or.inr h₁), arriveMiss_populates _ _ _ _ hif]
  rfl

theorem run_arrivals_aux {V : Type} (ttl : Nat) (s₀ : SysState V) (ds : Option String)
    (t₁ : Nat) (calls : List (Nat × Bool × Nat)) (ws : List WaitRec)
    (hstale : ∀ c ∈ calls, freshB s₀.dataCache (cacheKeyOf ds) c.2.2 ttl = false) :
    run ttl (joined s₀ (cacheKeyOf ds) t₁ ws) (arrivalActs V ds calls)
      = joined s₀ (cacheKeyOf ds) t₁
          ((calls.map fun c => WaitRec.mk c.1 s₀.nextPop false).reverse ++ ws) := by
  induction calls generalizing ws with
  | nil => simp [arrivalActs, run]
  | cons c rest ih =>
    have hc : freshB s₀.dataCache (cacheKeyOf ds) c.2.2 ttl = false :=
      hstale c (by simp)
    have hstep : step ttl (joined s₀ (cacheKeyOf ds) t₁ ws)
        (Act.arrive c.1 ds c.2.1 c.2.2)
        = joined s₀ (cacheKeyOf ds) t₁ (⟨c.1, s₀.nextPop, false⟩ :: ws) := by
      show arrive ttl (joined s₀ (cacheKeyOf ds) t₁ ws) c.1 ds c.2.1 c.2.2 = _
      have hc2 : freshB (joined s₀ (cacheKeyOf ds) t₁ ws).dataCache (cacheKeyOf ds)
          c.2.2 ttl = false := hc
      rw [arrive_miss_eq _ _ _ _ _ _ (Or.inr hc2),
        arriveMiss_joins _ _ _ _ s₀.nextPop (by simp [joined])]
      rfl
    have hrest : ∀ x ∈ rest, freshB s₀.dataCache (cacheKeyOf ds) x.2.2 ttl = false :=
      fun x hx => hstale x (by simp [hx])
    calc run ttl (joined s₀ (cacheKeyOf ds) t₁ ws) (arrivalActs V ds (c :: rest))
        = run ttl (joined s₀ (cacheKeyOf ds) t₁ (⟨c.1, s₀.nextPop, false⟩ :: ws))
            (arrivalActs V ds rest) := by
          simp only [arrivalActs, List.map_cons, run, hstep]
      _ = joined s₀ (cacheKeyOf ds) t₁
            ((rest.map fun x => WaitRec.mk x.1 s₀.nextPop false).reverse
              ++ (⟨c.1, s₀.nextPop, false⟩ :: ws)) := ih _ hrest
      _ = _ := by simp

theorem complete_run {V : Type} (s : SysState V) (p : Nat) (k : String) (t0 : Nat)
    (res : Except String V) (tDone : Nat)
    (hpi : alookup s.pops p = some ⟨k, t0⟩)
    (hif : alookup s.inFlight k = some p) :
    complete s p res tDone
      = { s with
          dataCache :=
            match res with
            | Except.ok v => ainsert s.dataCache k ⟨v, tDone, tDone - t0⟩
            | Except.error _ => s.dataCache
          inFlight := aerase s.inFlight k
          waiting := s.waiting.filter (fun w => decide (¬ w.popId = p))
          finished := (s.waiting.filter (fun w => decide (w.popId = p))).map
              (popOutcome res tDone (tDone - t0)) ++ s.finished } := by
  unfold complete
  rw [hpi]
  simp only [hif, if_pos]

/-- The wait records left by a batch of same-key calls: the first caller is
the runner, the rest deduplicated waiters (most recent first). -/
def c1Waiters (p : Nat) (c₁ : Nat) (rest : List (Nat × Bool × Nat)) : List WaitRec :=
  (rest.map fun c => WaitRec.mk c.1 p false).reverse ++ [WaitRec.mk c₁ p true]

theorem c1Waiters_popId (p c₁ : Nat) (rest : List (Nat × Bool × Nat)) :
    ∀ w ∈ c1Waiters p c₁ rest, w.popId = p := by
  intro w hw
  simp only [c1Waiters, List.mem_append, List.mem_reverse, List.mem_map,
    List.mem_singleton] at hw
  rcases hw with ⟨c, _, rfl⟩ | rfl <;> rfl

/-- **C1** (confirmed).  Single-flight: if `N = 1 + rest.length` callers
invoke `getAllLibraryData` for the same key while no fresh entry exists for
it and nothing is in flight, then exactly one population is started (the
population log grows by exactly the one new record and `nextPop` by one),
every caller is suspended on that single population, and when it settles
every one of the `N` callers receives the same outcome: the same data and
`fetchedAt` on success (the runner undeduplicated, the rest flagged
`deduped`), the same error on failure. -/
theorem C1_single_flight {V : Type} (ttl : Nat) (s₀ : SysState V) (ds : Option String)
    (c₁ : Nat) (f₁ : Bool) (t₁ : Nat) (rest : List (Nat × Bool × Nat))
    (res : Except String V) (tDone : Nat)
    (hif : alookup s₀.inFlight (cacheKeyOf ds) = none)
    (hwf : ∀ w ∈ s₀.waiting, ¬ w.popId = s₀.nextPop)
    (h₁ : freshB s₀.dataCache (cacheKeyOf ds) t₁ ttl = false)
    (hrest : ∀ c ∈ rest, freshB s₀.dataCache (cacheKeyOf ds) c.2.2 ttl = false) :
    run ttl s₀ (arrivalActs V ds ((c₁, f₁, t₁) :: rest))
      = joined s₀ (cacheKeyOf ds) t₁ (c1Waiters s₀.nextPop c₁ rest) ∧
    (run ttl s₀ (arrivalActs V ds ((c₁, f₁, t₁) :: rest))).nextPop = s₀.nextPop + 1 ∧
    (run ttl s₀ (arrivalActs V ds ((c₁, f₁, t₁) :: rest))).pops
      = (s₀.nextPop, ⟨cacheKeyOf ds, t₁⟩) :: s₀.pops ∧
    (complete (run ttl s₀ (arrivalActs V ds ((c₁, f₁, t₁) :: rest)))
        s₀.nextPop res tDone).finished
      = (c1Waiters s₀.nextPop c₁ rest).map (popOutcome res tDone (tDone - t₁))
          ++ s₀.finished := by
  have hrun : run ttl s₀ (arrivalActs V ds ((c₁, f₁, t₁) :: rest))
      = joined s₀ (cacheKeyOf ds) t₁ (c1Waiters s₀.nextPop c₁ rest) := by
    have h0 : arrive ttl s₀ c₁ ds f₁ t₁
        = joined s₀ (cacheKeyOf ds) t₁ [⟨c₁, s₀.nextPop, true⟩] :=
      arrive_first ttl s₀ c₁ ds f₁ t₁ hif h₁
    calc run ttl s₀ (arrivalActs V ds ((c₁, f₁, t₁) :: rest))
        = run ttl (joined s₀ (cacheKeyOf ds) t₁ [⟨c₁, s₀.nextPop, true⟩])
            (arrivalActs V ds rest) := by
          simp only [arrivalActs, List.map_cons, run, step, h0]
      _ = joined s₀ (cacheKeyOf ds) t₁
            ((rest.map fun c => WaitRec.mk c.1 s₀.nextPop false).reverse
              ++ [⟨c₁, s₀.nextPop, true⟩]) := run_arrivals_aux ttl s₀ ds t₁ rest _ hrest
      _ = _ := rfl
  refine ⟨hrun, by rw [hrun]; rfl, by rw [hrun]; rfl, ?_⟩
  rw [hrun]
  rw [complete_run (joined s₀ (cacheKeyOf ds) t₁ (c1Waiters s₀.nextPop c₁ rest))
    s₀.nextPop (cacheKeyOf ds) t₁ res tDone (by simp [joined]) (by simp [joined])]
  show ((c1Waiters s₀.nextPop c₁ rest ++ s₀.waiting).filter _).map _ ++ s₀.finished = _
  rw [List.filter_append,
    List.filter_eq_self.mpr
      (fun w hw => by simp [c1Waiters_popId s₀.nextPop c₁ rest w hw]),
    List.filter_eq_nil_iff.mpr (fun w hw => by simp [hwf w hw]),
    List.append_nil]

/-- **C1** witness: three concurrent callers on the empty cache start
exactly one population. -/
theorem C1_single_flight_witness :
    freshB (initState Nat).dataCache (cacheKeyOf none) 100 50000 = false ∧
    (run 50000 (initState Nat)
        (arrivalActs Nat none [(1, false, 100), (2, true, 100), (3, false, 105)])).nextPop
      = (initState Nat).nextPop + 1 :=
  ⟨by decide,
   (C1_single_flight 50000 (initState Nat) none 1 false 100
      [(2, true, 100), (3, false, 105)] (Except.ok 42) 200
      (by decide) (by decide) (by decide) (by decide)).2.1⟩

/-- **C3** (confirmed).  Freshness semantics: (1) an entry with a positive
timestamp is fresh iff `now - writtenAt < ttl`; (2) a non-forced call while
the entry is fresh returns the cached value as a cache hit, mutating
nothing else (in particular starting no population, so no adapter runs);
(3) a non-forced call with no fresh entry and nothing in flight starts a
new population; (4) a population started at `t0` that completes after
duration `d` writes its entry with `writtenAt = t0 + d` (completion time,
not start time) and records the duration. -/
theorem C3_freshness_semantics (V : Type) :
    (∀ (cache : List (String × CacheEntry V)) (k : String) (now ttl : Nat)
        (e : CacheEntry V), alookup cache k = some e → 0 < e.lastUpdated →
        (freshB cache k now ttl = true ↔ now - e.lastUpdated < ttl)) ∧
    (∀ (ttl : Nat) (s : SysState V) (c : Nat) (ds : Option String) (now : Nat)
        (e : CacheEntry V), alookup s.dataCache (cacheKeyOf ds) = some e →
        isFreshEntry e now ttl = true →
        arrive ttl s c ds false now
          = { s with finished := (c, Except.ok
                { data := e.data, fetchedAt := e.lastUpdated, cacheHit := true })
                :: s.finished }) ∧
    (∀ (ttl : Nat) (s : SysState V) (c : Nat) (ds : Option String) (now : Nat),
        freshB s.dataCache (cacheKeyOf ds) now ttl = false →
        alookup s.inFlight (cacheKeyOf ds) = none →
        arrive ttl s c ds false now
          = joined s (cacheKeyOf ds) now [⟨c, s.nextPop, true⟩]) ∧
    (∀ (s : SysState V) (p : Nat) (k : String) (t0 d : Nat) (v : V),
        alookup s.pops p = some ⟨k, t0⟩ → alookup s.inFlight k = some p →
        alookup (complete s p (Except.ok v) (t0 + d)).dataCache k
          = some ⟨v, t0 + d, d⟩) := by
  refine ⟨?_, ?_, ?_, ?_⟩
  · intro cache k now ttl e hl hpos
    rw [freshB_some cache k now ttl e hl]
    unfold isFreshEntry
    simp [Nat.pos_iff_ne_zero.mp hpos]
  · intro ttl s c ds now e hl hf
    exact arrive_hit ttl s c ds now e hl hf
  · intro ttl s c ds now hfb hif
    exact arrive_first ttl s c ds false now hif hfb
  · intro s p k t0 d v hpi hif
    rw [complete_run s p k t0 (Except.ok v) (t0 + d) hpi hif]
    show alookup (ainsert s.dataCache k ⟨v, t0 + d, t0 + d - t0⟩) k = _
    rw [alookup_ainsert_self]
    simp

def c3Entry : CacheEntry Nat := ⟨5, 1000, 3⟩

def c3Cache : List (String × CacheEntry Nat) := [("today", c3Entry)]

def c3S : SysState Nat :=
  ⟨[], [("today", 0)], 1, [(0, ⟨"today", 1000⟩)], [⟨9, 0, true⟩], []⟩

/-- **C3** witness: with `writtenAt = 1000` and `ttl = 50000`, a call at
`50999` is fresh and one at `51001` is not; a population started at `1000`
completing after `77` ms writes `writtenAt = 1077`. -/
theorem C3_freshness_semantics_witness :
    (alookup c3Cache "today" = some c3Entry ∧ 0 < c3Entry.lastUpdated) ∧
    ((freshB c3Cache "today" 50999 50000 = true ↔ 50999 - c3Entry.lastUpdated < 50000) ∧
     (freshB c3Cache "today" 51001 50000 = true ↔ 51001 - c3Entry.lastUpdated < 50000)) ∧
    alookup (complete c3S 0 (Except.ok 42) (1000 + 77)).dataCache "today"
      = some ⟨42, 1000 + 77, 77⟩ :=
  ⟨⟨by decide, by decide⟩,
   ⟨(C3_freshness_semantics Nat).1 c3Cache "today" 50999 50000 c3Entry
      (by decide) (by decide),
    (C3_freshness_semantics Nat).1 c3Cache "today" 51001 50000 c3Entry
      (by decide) (by decide)⟩,
   (C3_freshness_semantics Nat).2.2.2 c3S 0 "today" 1000 77 42 (by decide) (by decide)⟩

def c4State : SysState Nat :=
  run 50000 (initState Nat)
    [Act.arrive 0 none false 0, Act.complete 0 (Except.ok 7) 10,
     Act.arrive 1 none true 20]

/-- **C4** counterexample.  In the (reachable) state where a fresh entry
for `today` exists *and* a population for it is already in flight (started
by a forced call), a further `force = true` call starts no new population:
`nextPop` and the population log are unchanged — refuting "force always
triggers a new population". -/
theorem C4_counterexample :
    freshB c4State.dataCache "today" 25 50000 = true ∧
    alookup c4State.inFlight "today" = some 1 ∧
    (step 50000 c4State (Act.arrive 2 none true 25)).nextPop = c4State.nextPop ∧
    (step 50000 c4State (Act.arrive 2 none true 25)).pops = c4State.pops := by
  decide

/-- **C4** (corrected).  Force bypasses the cache: a `force = true` call
with no population in flight for its key always starts a new population,
regardless of how fresh the cached entry is (no freshness hypothesis
appears); if a population is already in flight, the call joins it instead
(see the C10 theorem). -/
theorem C4_force_bypasses_cache {V : Type} (ttl : Nat) (s : SysState V) (c : Nat)
    (ds : Option String) (now : Nat)
    (hif : alookup s.inFlight (cacheKeyOf ds) = none) :
    arrive ttl s c ds true now = joined s (cacheKeyOf ds) now [⟨c, s.nextPop, true⟩] := by
  rw [arrive_miss_eq _ _ _ _ _ _ (Or.inl rfl), arriveMiss_populates _ _ _ _ hif]
  rfl

def c4FreshS : SysState Nat := ⟨[("today", ⟨42, 10, 5⟩)], [], 0, [], [], []⟩

/-- **C4** witness: a forced call at time 20 against an entry written at 10
(fresh for `ttl = 50000`) still starts a population. -/
theorem C4_force_bypasses_cache_witness :
    (alookup c4FreshS.inFlight (cacheKeyOf none) = none ∧
     freshB c4FreshS.dataCache "today" 20 50000 = true) ∧
    arrive 50000 c4FreshS 9 none true 20
      = joined c4FreshS (cacheKeyOf none) 20 [⟨9, c4FreshS.nextPop, true⟩] :=
  ⟨⟨by decide, by decide⟩, C4_force_bypasses_cache 50000 c4FreshS 9 none 20 (by decide)⟩

/-- **C5** (confirmed).  Population failure atomicity: when the in-flight
population `p` for key `k` fails, (1) the data cache is left exactly as it
was (no entry written, any prior entry untouched), (2) the in-flight marker
for `k` is removed, (3) every caller awaiting `p` — the initiating runner
and all deduplicated waiters — receives exactly the failing error, and
(4) a later call for `k` can start a fresh population. -/
theorem C5_failure_atomicity {V : Type} (ttl : Nat) (s : SysState V) (p : Nat)
    (k : String) (t0 : Nat) (e : String) (tDone : Nat)
    (hpi : alookup s.pops p = some ⟨k, t0⟩)
    (hif : alookup s.inFlight k = some p) :
    (complete s p (Except.error e) tDone).dataCache = s.dataCache ∧
    alookup (complete s p (Except.error e) tDone).inFlight k = none ∧
    (complete s p (Except.error e) tDone).finished
      = (s.waiting.filter (fun w => decide (w.popId = p))).map
          (fun w => (w.caller, Except.error e)) ++ s.finished ∧
    (∀ (c : Nat) (ds : Option String) (now : Nat), cacheKeyOf ds = k →
      (arrive ttl (complete s p (Except.error e) tDone) c ds true now).nextPop
        = (complete s p (Except.error e) tDone).nextPop + 1) := by
  rw [complete_run s p k t0 (Except.error e) tDone hpi hif]
  refine ⟨rfl, alookup_aerase_self s.inFlight k, rfl, ?_⟩
  intro c ds now hk
  rw [arrive_miss_eq _ _ _ _ _ _ (Or.inl rfl),
    arriveMiss_populates _ _ _ _ (by rw [hk]; exact alookup_aerase_self s.inFlight k)]

def c5S : SysState Nat :=
  ⟨[("today", ⟨7, 50, 2⟩)], [("today", 3)], 4, [(3, ⟨"today", 120⟩)],
   [⟨1, 3, true⟩, ⟨2, 3, false⟩], []⟩

/-- **C5** witness: a failing population leaves the prior entry in place,
clears the in-flight marker, and rejects the runner and the waiter with
the same error. -/
theorem C5_failure_atomicity_witness :
    (alookup c5S.pops 3 = some ⟨"today", 120⟩ ∧
     alookup c5S.inFlight "today" = some 3) ∧
    (complete c5S 3 (Except.error "boom") 200).dataCache = c5S.dataCache ∧
    alookup (complete c5S 3 (Except.error "boom") 200).inFlight "today" = none ∧
    (complete c5S 3 (Except.error "boom") 200).finished
      = [(1, Except.error "boom"), (2, Except.error "boom")] :=
  ⟨⟨by decide, by decide⟩,
   (C5_failure_atomicity 50000 c5S 3 "today" 120 "boom" 200 (by decide) (by decide)).1,
   (C5_failure_atomicity 50000 c5S 3 "today" 120 "boom" 200 (by decide) (by decide)).2.1,
   by decide⟩

/-- **C10** (confirmed).  Force defers to an in-flight population: a
`force = true` call arriving while a population for its key is in flight
starts no second population (the state changes only by suspending the
caller as a waiter), and when that population completes the caller
resolves to its result flagged `deduped = true`, `cacheHit = false`. -/
theorem C10_force_defers {V : Type} (ttl : Nat) (s : SysState V) (c : Nat)
    (ds : Option String) (now p t0 : Nat) (v : V) (tDone : Nat)
    (hif : alookup s.inFlight (cacheKeyOf ds) = some p)
    (hpi : alookup s.pops p = some ⟨cacheKeyOf ds, t0⟩) :
    arrive ttl s c ds true now = { s with waiting := ⟨c, p, false⟩ :: s.waiting } ∧
    (complete (arrive ttl s c ds true now) p (Except.ok v) tDone).finished.head?
      = some (c, Except.ok { data := v, fetchedAt := tDone,
                             fetchDurationMs := some (tDone - t0),
                             cacheHit := false, deduped := true }) := by
  have hjoin : arrive ttl s c ds true now
      = { s with waiting := ⟨c, p, false⟩ :: s.waiting } := by
    rw [arrive_miss_eq _ _ _ _ _ _ (Or.inl rfl), arriveMiss_joins _ _ _ _ p hif]
  refine ⟨hjoin, ?_⟩
  rw [hjoin]
  rw [complete_run { s with waiting := ⟨c, p, false⟩ :: s.waiting } p
    (cacheKeyOf ds) t0 (Except.ok v) tDone hpi hif]
  show (((⟨c, p, false⟩ :: s.waiting).filter _).map _ ++ _).head? = _
  simp [popOutcome]

def c10S : SysState Nat :=
  ⟨[], [("today", 5)], 6, [(5, ⟨"today", 90⟩)], [⟨0, 5, true⟩], []⟩

/-- **C10** witness: a forced call joining the in-flight population 5
resolves, on its completion at 130, to the shared value with
`deduped = true` and `cacheHit = false`. -/
theorem C10_force_defers_witness :
    (alookup c10S.inFlight (cacheKeyOf none) = some 5 ∧
     alookup c10S.pops 5 = some ⟨cacheKeyOf none, 90⟩) ∧
    arrive 50000 c10S 8 none true 95
      = { c10S with waiting := ⟨8, 5, false⟩ :: c10S.waiting } ∧
    (complete (arrive 50000 c10S 8 none true 95) 5 (Except.ok 11) 130).finished.head?
      = some (8, Except.ok { data := 11, fetchedAt := 130, fetchDurationMs := some 40,
                             cacheHit := false, deduped := true }) :=
  ⟨⟨by decide, by decide⟩,
   C10_force_defers 50000 c10S 8 none 95 5 90 11 130 (by decide) (by decide)⟩

/-! ## Schedule-table cell claims (C7, C8) -/

/-- The output of the recognizable-range branch of `classifyCell`. -/
def rangeResult (g1 g2 : List Char) : DayHours :=
  let openStr := String.mk (upAmPm (trimL g1))
  let closeStr := String.mk (upAmPm (trimL g2))
  let openTime := parseTimeToDecimal openStr
  let closeTime0 := parseTimeToDecimal closeStr
  { openH := openTime
    closeH := if closeTime0 = some 0 then some 24 else closeTime0
    openStr := openStr
    closeStr := closeStr }

def c7CellA : List Char := "<span class=\"s-lc-time\">by appointment</span>".data

def c7CellB : List Char := "7:30am - 6:00pm".data

/-- **C7** counterexample.  Cell A carries no closed marker, no `24 hour`
label anywhere, and no recognizable time range anywhere, so by the claim it
should fall back to `{open: 0, close: 24}` labelled unknown; the code
labels it `24 Hours` (the `s-lc-time` span is present but unparseable).
Cell B contains a perfectly recognizable `7:30am - 6:00pm` range, so by the
claim it should parse to decimal hours; the code returns the `Unknown`
fallback because the range is not inside an `s-lc-time` span. -/
theorem C7_counterexample :
    (containsSub c7CellA "s-lc-closed".data = false ∧
     containsSub (toLowerL c7CellA) "24 hour".data = false ∧
     findRange c7CellA = none ∧
     classifyCell c7CellA
       = { openH := some 0, closeH := some 24, openStr := "24 Hours", closeStr := "" } ∧
     (classifyCell c7CellA).openStr ≠ "Unknown") ∧
    (containsSub c7CellB "s-lc-closed".data = false ∧
     findRange c7CellB = some ("7:30am".data, "6:00pm".data) ∧
     classifyCell c7CellB
       = { openH := some 0, closeH := some 24, openStr := "Unknown", closeStr := "" } ∧
     (classifyCell c7CellB).openH ≠ some (15 / 2 : ℚ)) := by
  refine ⟨⟨by decide, by decide, by decide, by decide, by decide⟩,
          ⟨by decide, by decide, by decide, ?_⟩⟩
  rw [show (classifyCell c7CellB).openH = some 0 by decide]
  simp
  norm_num

/-- **C7** (corrected).  Cell classification by priority: (1) a closed
marker (`s-lc-closed` anywhere in the cell) yields the closed value;
(2) else a `24 hour` label inside the cell's `s-lc-timetxt` span yields
`{open: 0, close: 24}` carrying the parenthetical note if any; (3) else a
recognizable time range inside the cell's `s-lc-time` span yields the
parsed decimal hours (via `parseTimeToDecimal`, with a parsed close of
exactly 0 reinterpreted as 24); (4) else the cell falls back to
`{open: 0, close: 24}`, labelled `24 Hours` when the `s-lc-time` span is
present but unparseable and `Unknown` when no such span exists.  The
conversion rule is `hour + minute/60` with `pm` and hour ≠ 12 adding 12 and
`am` with hour 12 becoming 0.  Every located row has each of its (up to 7)
day cells classified independently by this total function, so no malformed
cell ever fails the whole parse. -/
theorem C7_cell_classification :
    (∀ cell : List Char, containsSub cell "s-lc-closed".data = true →
      classifyCell cell
        = { openH := none, closeH := none, closed := true,
            openStr := "Closed", closeStr := "" }) ∧
    (∀ (cell txt : List Char), containsSub cell "s-lc-closed".data = false →
      matchSpanClass "s-lc-timetxt".data cell = some txt →
      containsSub (toLowerL txt) "24 hour".data = true →
      classifyCell cell
        = { openH := some 0, closeH := some 24, openStr := "24 Hours", closeStr := "",
            note := (parenNoteL (trimL txt)).map (fun r => String.mk (trimL r)) }) ∧
    (∀ (cell tc g1 g2 : List Char), containsSub cell "s-lc-closed".data = false →
      (∀ txt, matchSpanClass "s-lc-timetxt".data cell = some txt →
        containsSub (toLowerL txt) "24 hour".data = false) →
      matchSpanClass "s-lc-time".data cell = some tc →
      findRange tc = some (g1, g2) →
      classifyCell cell = rangeResult g1 g2) ∧
    (∀ (cell tc : List Char), containsSub cell "s-lc-closed".data = false →
      (∀ txt, matchSpanClass "s-lc-timetxt".data cell = some txt →
        containsSub (toLowerL txt) "24 hour".data = false) →
      matchSpanClass "s-lc-time".data cell = some tc →
      findRange tc = none →
      classifyCell cell
        = { openH := some 0, closeH := some 24, openStr := "24 Hours", closeStr := "" }) ∧
    (∀ cell : List Char, containsSub cell "s-lc-closed".data = false →
      (∀ txt, matchSpanClass "s-lc-timetxt".data cell = some txt →
        containsSub (toLowerL txt) "24 hour".data = false) →
      matchSpanClass "s-lc-time".data cell = none →
      classifyCell cell
        = { openH := some 0, closeH := some 24, openStr := "Unknown", closeStr := "" }) ∧
    (∀ (s : String) (t : TimeTok), s.data.isEmpty = false →
      (toLowerL s.data = "closed".data → False) →
      findTimeTok s.data = some t →
      parseTimeToDecimal s
        = some (((if t.isPm && t.hour ≠ 12 then t.hour + 12
                  else if !t.isPm && t.hour = 12 then 0
                  else t.hour : Nat) : ℚ) + (t.minute : ℚ) / 60)) ∧
    (∀ (html rowName mondayDate : String) (row : List Char) (md : CivilDate),
      findTargetRow html.data rowName.data = some row →
      parseDate? mondayDate = some md →
      parseRowHours html rowName mondayDate
        = some (((tdCells row).drop 1).take 7 |>.mapIdx fun j c =>
            (formatCivil (addDaysC md j), classifyCell c))) := by
  refine ⟨?_, ?_, ?_, ?_, ?_, ?_, ?_⟩
  · intro cell hc
    unfold classifyCell
    simp [hc]
  · intro cell txt hc hspan h24
    unfold classifyCell
    simp [hc, hspan, h24]
  · intro cell tc g1 g2 hc h24 hts hr
    have hcc : classifyCell cell = classifyCell.classifyCellTime cell := by
      unfold classifyCell
      rcases hspan : matchSpanClass "s-lc-timetxt".data cell with _ | txt
      · simp [hc, hspan]
      · simp [hc, hspan, h24 txt hspan]
    rw [hcc]
    unfold classifyCell.classifyCellTime
    simp [hts, hr, rangeResult]
  · intro cell tc hc h24 hts hr
    have hcc : classifyCell cell = classifyCell.classifyCellTime cell := by
      unfold classifyCell
      rcases hspan : matchSpanClass "s-lc-timetxt".data cell with _ | txt
      · simp [hc, hspan]
      · simp [hc, hspan, h24 txt hspan]
    rw [hcc]
    unfold classifyCell.classifyCellTime
    simp [hts, hr]
  · intro cell hc h24 hts
    have hcc : classifyCell cell = classifyCell.classifyCellTime cell := by
      unfold classifyCell
      rcases hspan : matchSpanClass "s-lc-timetxt".data cell with _ | txt
      · simp [hc, hspan]
      · simp [hc, hspan, h24 txt hspan]
    rw [hcc]
    unfold classifyCell.classifyCellTime
    simp [hts]
  · intro s t hne hcl hft
    unfold parseTimeToDecimal
    simp only [hne, Bool.false_eq_true, if_false, hft]
    split
    · rename_i hcl2
      exact absurd hcl2 hcl
    · rw [decimalHours_spec]
  · intro html rowName mondayDate row md hrow hmd
    unfold parseRowHours
    rw [hrow, hmd]
    rfl

def c7WCell : List Char :=
  "<span class=\"s-lc-timetxt\">24 Hours (note here)</span>".data

/-- **C7** witness: the 24-hour rule on a concrete cell extracts the
parenthetical note, and a span-less cell gets the `Unknown` fallback. -/
theorem C7_cell_classification_witness :
    (containsSub c7WCell "s-lc-closed".data = false ∧
     matchSpanClass "s-lc-timetxt".data c7WCell
       = some "24 Hours (note here)".data) ∧
    classifyCell c7WCell
      = { openH := some 0, closeH := some 24, openStr := "24 Hours", closeStr := "",
          note := (parenNoteL (trimL "24 Hours (note here)".data)).map
            (fun r => String.mk (trimL r)) } ∧
    classifyCell "plain text".data
      = { openH := some 0, closeH := some 24, openStr := "Unknown", closeStr := "" } :=
  ⟨⟨by decide, by decide⟩,
   (C7_cell_classification).2.1 c7WCell "24 Hours (note here)".data
     (by decide) (by decide) (by decide),
   (C7_cell_classification).2.2.2.2.1 "plain text".data
     (by decide)
     (fun txt h => by
       rw [show matchSpanClass "s-lc-timetxt".data "plain text".data = none
         by decide] at h
       cases h)
     (by decide)⟩

/-- An apostrophe character, kept out of string literals. -/
def apos : String := String.singleton (Char.ofNat 39)

def c8Html : String :=
  "<table><tr><td>Some Other Library</td><td>x</td></tr>" ++
  "<tr><td>FAES Library</td>" ++
  "<td><span class=\"s-lc-time\">7:30am – 6:00pm</span></td>" ++
  "<td><span class=\"s-lc-closed\">Closed</span></td>" ++
  ("<td><span class=\"s-lc-timetxt\">24 Hours (ID req" ++ apos ++
    "d after 12AM)</span></td>") ++
  "<td>d4</td><td>d5</td><td>d6</td><td>d7</td></tr></table>"

set_option maxRecDepth 40000 in
/-- **C8** (confirmed).  Concrete parses on the `FAES Library` row for the
week of Monday 2026-01-19: the Monday cell `7:30am – 6:00pm` yields
`{open: 7.5, close: 18}` for that date; a `Closed` cell (the widget's
closed-state marker) yields `{closed: true}`; a cell reading
`24 Hours (ID req'd after 12AM)` yields `{open: 0, close: 24}` with note
`ID req'd after 12AM`. -/
theorem C8_schedule_parsing :
    ((parseRowHours c8Html "FAES Library" "2026-01-19").bind
        (fun m => alookup m "2026-01-19")).map (fun h => (h.openH, h.closeH))
      = some (some (15 / 2 : ℚ), some 18) ∧
    ((parseRowHours c8Html "FAES Library" "2026-01-19").bind
        (fun m => alookup m "2026-01-20")).map (fun h => h.closed)
      = some true ∧
    ((parseRowHours c8Html "FAES Library" "2026-01-19").bind
        (fun m => alookup m "2026-01-21")).map (fun h => (h.openH, h.closeH, h.note))
      = some (some 0, some 24, some ("ID req" ++ apos ++ "d after 12AM")) := by
  refine ⟨?_, by decide, by decide⟩
  rw [show (15 / 2 : ℚ) = mkRat 15 2 by rw [Rat.mkRat_eq_div]; norm_num]
  decide

/-! ## The weekly hours cache (`fetchLibCalHours` / `hoursCache`)

`fetchLibCalHours(libraryId, dateStr)` keys a module-level `hoursCache` by
`` `${libraryId}-${mondayDate}` `` with a one-hour TTL.  Unlike the main
data cache it has **no** in-flight map: the atomic segment from entry to
the `await fetch(url)` checks the cache and, on a miss, starts an upstream
request; completion (response text received, rows parsed, entry written) is
a second atomic step.  `fetchLog` records every upstream request started so
that fetch-counting claims are statements about the state. -/

structure HoursRowConfig where
  lid : Nat
  buildingRowName : String
  reservationRowName : String
deriving DecidableEq, Repr

/-- `LIBCAL_HOURS_CONFIG` from the source. -/
def LIBCAL_HOURS_CONFIG : List (String × HoursRowConfig) :=
  [("18th-ave", ⟨16287, "18th Avenue Library", "18th Group Study Rooms"⟩),
   ("thompson", ⟨16286, "Thompson Library", "Thompson Group Study Rooms"⟩),
   ("faes", ⟨16298, "FAES Library", "FAES Library"⟩)]

/-- One date's combined entry: `{building, reservation}`. -/
structure WeekHours where
  building : Option DayHours
  reservation : Option DayHours
deriving DecidableEq, Repr

/-- Iteration order of `new Set([...])`: first occurrences, in order. -/
def dedupKeys (l : List String) : List String :=
  l.foldl (fun acc k => if acc.contains k then acc else acc ++ [k]) []

/-- The result assembly of `fetchLibCalHours`: all dates of either parsed
row, each mapped to its building/reservation entries (or null). -/
def combineHours (b r : Option (List (String × DayHours))) :
    List (String × WeekHours) :=
  let bl := match b with | some m => m.map (·.1) | none => []
  let rl := match r with | some m => m.map (·.1) | none => []
  (dedupKeys (bl ++ rl)).map fun d =>
    (d, { building := match b with | some m => alookup m d | none => none
          reservation := match r with | some m => alookup m d | none => none })

structure HoursEntry where
  lastUpdated : Nat
  data : List (String × WeekHours)
deriving DecidableEq, Repr

/-- A caller whose upstream hours request is outstanding. -/
structure PendingHours where
  caller : Nat
  cfg : HoursRowConfig
  monday : String
  key : String
deriving DecidableEq, Repr

structure HoursSys where
  hoursCache : List (String × HoursEntry)
  fetchLog : List (String × Nat)
  pendingH : List PendingHours
  resultsH : List (Nat × Option (List (String × WeekHours)))
deriving DecidableEq, Repr

def initHours : HoursSys := ⟨[], [], [], []⟩

def HOURS_CACHE_TTL : Nat := 60 * 60 * 1000

/-- A cache miss starts an upstream request (`await fetch(url)`). -/
def startHoursFetch (s : HoursSys) (caller : Nat) (cfg : HoursRowConfig)
    (monday key : String) (now : Nat) : HoursSys :=
  { s with fetchLog := (key, now) :: s.fetchLog
           pendingH := ⟨caller, cfg, monday, key⟩ :: s.pendingH }

/-- The atomic entry segment of `fetchLibCalHours(libraryId, dateStr)`:
unknown library → `null`; fresh cached entry → its data; otherwise start
the upstream request.  (An unparseable date makes the JS throw before any
fetch; the exception lands in the calling adapter's `catch`; the net
effect on the hours cache — no fetch, no write — is modelled as a `null`
result.) -/
def hoursArrive (s : HoursSys) (caller : Nat) (libraryId dateStr : String)
    (now : Nat) : HoursSys :=
  match alookup LIBCAL_HOURS_CONFIG libraryId with
  | none => { s with resultsH := (caller, none) :: s.resultsH }
  | some cfg =>
    match getMondayOfWeek? dateStr with
    | none => { s with resultsH := (caller, none) :: s.resultsH }
    | some monday =>
      let key := libraryId ++ "-" ++ monday
      match alookup s.hoursCache key with
      | some e =>
        if e.lastUpdated ≠ 0 ∧ now - e.lastUpdated < HOURS_CACHE_TTL then
          { s with resultsH := (caller, some e.data) :: s.resultsH }
        else startHoursFetch s caller cfg monday key now
      | none => startHoursFetch s caller cfg monday key now

/-- The atomic completion of a caller's upstream request: on a successful
response, parse the building and reservation rows, combine them keyed by
date, write the cache entry (timestamped now) and return the result; on a
network/text failure the `catch` returns `null` and writes nothing. -/
def hoursComplete (s : HoursSys) (caller : Nat) (fetched : Except String String)
    (now : Nat) : HoursSys :=
  match s.pendingH.find? (fun q => q.caller == caller) with
  | none => s
  | some p =>
    let pending2 := s.pendingH.filter (fun q => !(q.caller == caller))
    match fetched with
    | Except.error _ =>
      { s with pendingH := pending2, resultsH := (caller, none) :: s.resultsH }
    | Except.ok html =>
      let result := combineHours
        (parseRowHours html p.cfg.buildingRowName p.monday)
        (parseRowHours html p.cfg.reservationRowName p.monday)
      { s with hoursCache := ainsert s.hoursCache p.key ⟨now, result⟩
               pendingH := pending2
               resultsH := (caller, some result) :: s.resultsH }

def c6Trace : HoursSys :=
  hoursArrive (hoursArrive initHours 1 "faes" "2026-01-21" 100) 2 "faes" "2026-01-22" 105

/-- **C6** counterexample.  Two concurrent hours requests for the same
`(facility, week)` key — here two dates of the same week, as the bootstrap
path issues them — each start their own upstream fetch: the log holds two
requests for `faes-2026-01-19`, refuting "concurrent hours requests for the
same key trigger at most one upstream fetch". -/
theorem C6_counterexample :
    (getMondayOfWeek? "2026-01-21" = some "2026-01-19" ∧
     getMondayOfWeek? "2026-01-22" = some "2026-01-19") ∧
    c6Trace.fetchLog = [("faes-2026-01-19", 105), ("faes-2026-01-19", 100)] ∧
    c6Trace.fetchLog.length = 2 := by
  decide

/-- **C6** (corrected).  The per-facility hours sub-fetch uses its own
nested cache, keyed by `libraryId ++ "-" ++ mondayOfWeek(dateStr)` with a
one-hour TTL (3 600 000 ms), independent of the per-date data cache:
(1) within one hour of a successful fetch for a key, a further request for
any date of the same week is served from the cache and issues no upstream
request; (2) a request finding no entry for its key starts exactly one
upstream fetch under that key; but (3) the hours cache has no in-flight
map, so two concurrent same-key requests (second arriving before the first
completes) each issue an upstream fetch — concurrent requests are *not*
deduplicated. -/
theorem C6_hours_cache (s : HoursSys) (caller : Nat) (p : PendingHours)
    (html : String) (tc : Nat) (c2 : Nat) (lib d : String) (ta : Nat)
    (cfg : HoursRowConfig) (monday : String)
    (hp : s.pendingH.find? (fun q => q.caller == caller) = some p)
    (hcfg : alookup LIBCAL_HOURS_CONFIG lib = some cfg)
    (hmon : getMondayOfWeek? d = some monday)
    (hkey : lib ++ "-" ++ monday = p.key)
    (htc : 0 < tc) (hta : ta - tc < HOURS_CACHE_TTL) :
    (hoursComplete s caller (Except.ok html) tc).hoursCache
      = ainsert s.hoursCache p.key
          ⟨tc, combineHours (parseRowHours html p.cfg.buildingRowName p.monday)
                            (parseRowHours html p.cfg.reservationRowName p.monday)⟩ ∧
    hoursArrive (hoursComplete s caller (Except.ok html) tc) c2 lib d ta
      = { hoursComplete s caller (Except.ok html) tc with
          resultsH := (c2, some (combineHours
              (parseRowHours html p.cfg.buildingRowName p.monday)
              (parseRowHours html p.cfg.reservationRowName p.monday)))
            :: (hoursComplete s caller (Except.ok html) tc).resultsH } ∧
    (∀ (s3 : HoursSys) (c3 : Nat) (t3 : Nat),
      alookup s3.hoursCache (lib ++ "-" ++ monday) = none →
      hoursArrive s3 c3 lib d t3
        = startHoursFetch s3 c3 cfg monday (lib ++ "-" ++ monday) t3) ∧
    (∀ (s3 : HoursSys) (c3 c4 : Nat) (t3 t4 : Nat),
      alookup s3.hoursCache (lib ++ "-" ++ monday) = none →
      (hoursArrive (hoursArrive s3 c3 lib d t3) c4 lib d t4).fetchLog
        = (lib ++ "-" ++ monday, t4) :: (lib ++ "-" ++ monday, t3) :: s3.fetchLog) := by
  have hcompl : hoursComplete s caller (Except.ok html) tc
      = { s with
          hoursCache := ainsert s.hoursCache p.key
            ⟨tc, combineHours (parseRowHours html p.cfg.buildingRowName p.monday)
                              (parseRowHours html p.cfg.reservationRowName p.monday)⟩
          pendingH := s.pendingH.filter (fun q => !(q.caller == caller))
          resultsH := (caller, some (combineHours
              (parseRowHours html p.cfg.buildingRowName p.monday)
              (parseRowHours html p.cfg.reservationRowName p.monday)))
            :: s.resultsH } := by
    unfold hoursComplete
    rw [hp]
  have harr : ∀ (s3 : HoursSys) (c3 : Nat) (t3 : Nat),
      alookup s3.hoursCache (lib ++ "-" ++ monday) = none →
      hoursArrive s3 c3 lib d t3
        = startHoursFetch s3 c3 cfg monday (lib ++ "-" ++ monday) t3 := by
    intro s3 c3 t3 hnone
    unfold hoursArrive
    simp only [hcfg, hmon, hnone]
  refine ⟨by rw [hcompl], ?_, harr, ?_⟩
  · rw [hcompl]
    unfold hoursArrive
    simp only [hcfg, hmon]
    rw [hkey, alookup_ainsert_self]
    simp [Nat.pos_iff_ne_zero.mp htc, hta]
  · intro s3 c3 c4 t3 t4 hnone
    rw [harr s3 c3 t3 hnone]
    have hnone2 : alookup (startHoursFetch s3 c3 cfg monday (lib ++ "-" ++ monday)
        t3).hoursCache (lib ++ "-" ++ monday) = none := hnone
    rw [harr _ c4 t4 hnone2]
    rfl

def c6WS : HoursSys :=
  ⟨[], [], [⟨1, ⟨16298, "FAES Library", "FAES Library"⟩, "2026-01-19",
    "faes-2026-01-19"⟩], []⟩

/-- **C6** witness: after caller 1's fetch for `faes-2026-01-19` completes
at 1000, a request for another date of the same week at 2000 (within the
hour) is served from the cache with no new upstream fetch. -/
theorem C6_hours_cache_witness :
    (c6WS.pendingH.find? (fun q => q.caller == 1)
        = some ⟨1, ⟨16298, "FAES Library", "FAES Library"⟩, "2026-01-19",
                "faes-2026-01-19"⟩ ∧
     alookup LIBCAL_HOURS_CONFIG "faes"
        = some ⟨16298, "FAES Library", "FAES Library"⟩ ∧
     getMondayOfWeek? "2026-01-22" = some "2026-01-19") ∧
    (hoursArrive (hoursComplete c6WS 1 (Except.ok "<table></table>") 1000) 2
        "faes" "2026-01-22" 2000).fetchLog
      = (hoursComplete c6WS 1 (Except.ok "<table></table>") 1000).fetchLog :=
  ⟨⟨by decide, by decide, by decide⟩,
   by rw [(C6_hours_cache c6WS 1
      ⟨1, ⟨16298, "FAES Library", "FAES Library"⟩, "2026-01-19", "faes-2026-01-19"⟩
      "<table></table>" 1000 2 "faes" "2026-01-22" 2000
      ⟨16298, "FAES Library", "FAES Library"⟩ "2026-01-19"
      (by decide) (by decide) (by decide) (by decide) (by decide) (by decide)).2.1]⟩

/-! ## Source adapters (`fetchOsuApi`, `scrapeLibCal`)

Each adapter is a function of its library configuration and an explicit
environment recording the outcomes of its effects (network responses,
browser launch, page scrape, browser close).  `fetchOsuApi` catches every
internal failure; `scrapeLibCal` launches the browser *outside* its
`try`/`catch` and closes it in a `finally`, so a launch (or close) failure
escapes as a rejection — hence its result type is `Except`. -/

inductive FloorLabel where
  | ll
  | num (n : Nat)
deriving DecidableEq, Repr

structure RoomSlot where
  time : String
  available : Bool
  starttime : Option String := none
deriving DecidableEq, Repr

structure Room where
  name : String
  fullName : Option String := none
  capacity : Nat
  floor : FloorLabel
  amenities : List String
  slots : List RoomSlot
deriving DecidableEq, Repr

/-- One entry of the `LIBRARIES` configuration.  `hours` is the static
`{open, close}` pair (decimal hours; rationals are written with `mkRat` so
concrete instances reduce in the kernel).  `roomInfo` maps an HSL room name
to `(capacity, floor)`. -/
structure LibraryCfg where
  id : String
  name : String
  locationId : Nat := 0
  type : String
  hoursOpen : ℚ
  hoursClose : ℚ
  roomInfo : List (String × Nat × Nat) := []
deriving DecidableEq, Repr

def lib18thAve : LibraryCfg :=
  { id := "18th-ave", name := "18th Avenue Library", locationId := 16287,
    type := "osu-api", hoursOpen := mkRat 15 2, hoursClose := mkRat 47 2 }

def libThompson : LibraryCfg :=
  { id := "thompson", name := "Thompson Library", locationId := 16286,
    type := "osu-api", hoursOpen := 11, hoursClose := mkRat 47 2 }

def libFaes : LibraryCfg :=
  { id := "faes", name := "FAES Library", locationId := 16298,
    type := "osu-api", hoursOpen := 8, hoursClose := 18 }

def libHsl : LibraryCfg :=
  { id := "hsl", name := "Health Sciences Library", type := "libcal",
    hoursOpen := 8, hoursClose := 22,
    roomInfo := [("360A", 5, 3), ("360B", 5, 3), ("360C", 5, 3), ("360D", 5, 3),
                 ("360E", 5, 3), ("360F", 5, 3), ("360G", 5, 3), ("360H", 5, 3)] }

def LIBRARIES : List LibraryCfg := [lib18thAve, libThompson, libFaes, libHsl]

/-- The `hours` field of a returned facility: the config's untouched static
pair (degraded and scrape paths), the dynamic weekly map, or the
`{building: null, reservation: {open, close}}` fallback object. -/
inductive FacilityHours where
  | staticPair (o c : ℚ)
  | dynamic (h : List (String × WeekHours))
  | fallbackObj (o c : ℚ)
deriving DecidableEq, Repr

structure Facility where
  cfg : LibraryCfg
  hours : FacilityHours
  rooms : List Room
  scrapedAt : Nat
  isLive : Bool := false
  error : Option String := none
deriving DecidableEq, Repr

/-- `{...library, rooms: [], scrapedAt, error}`: the degraded facility both
adapters return from their `catch` blocks (the spread keeps the config's
static hours). -/
def degradedFacility (lib : LibraryCfg) (now : Nat) (msg : String) : Facility :=
  { cfg := lib, hours := FacilityHours.staticPair lib.hoursOpen lib.hoursClose,
    rooms := [], scrapedAt := now, isLive := false, error := some msg }

/-! ### OSU API adapter -/

structure OsuSlotRec where
  roomName : String
  starttime : String
  isOpen : Bool
  taken : Bool
  roomHide : Bool
  maximumCapacity : Nat
  whiteboard : Bool
  hdtv : Bool
  videoConferencing : Bool
deriving DecidableEq, Repr

structure OsuRoomData where
  timeslots : List OsuSlotRec
deriving DecidableEq, Repr

structure OsuJson where
  status : String
  locationAvailableRooms : Option (List OsuRoomData)
deriving DecidableEq, Repr

structure OsuResponse where
  ok : Bool
  status : Nat
  jsonBody : Except String OsuJson
deriving DecidableEq, Repr

/-- Environment of one `fetchOsuApi` call: network outcome, the hours
sub-query's result (`getLibraryHoursForDate` never rejects: every failure
inside it resolves to `null`), and the wall clock. -/
structure OsuEnv where
  response : Except String OsuResponse
  dynamicHours : Option (List (String × WeekHours))
  now : Nat
deriving DecidableEq, Repr

/-- `extractRoomNumber`: the trailing `(\d+[A-Za-z]?)\s*$` token of the raw
room name, or the whole name when there is none. -/
def extractRoomNumber (roomName : String) : String :=
  let r := roomName.data.reverse.dropWhile isWsChar
  let pick : List Char × List Char :=
    match r with
    | c :: rest => if c.isAlpha then ([c], rest) else ([], r)
    | [] => ([], [])
  let digits := pick.2.takeWhile isDigitCh
  if digits.isEmpty then roomName else String.mk (digits.reverse ++ pick.1)

/-- `String.prototype.split` on one separator character. -/
def splitOnChar (sep : Char) : List Char → List (List Char)
  | [] => [[]]
  | c :: s =>
    let r := splitOnChar sep s
    if c = sep then [] :: r
    else match r with
      | x :: xs => (c :: x) :: xs
      | [] => [[c]]

/-- `formatEstTime`: `"14:30:00"` ↦ `"2:30pm"` (call sites always pass
well-formed `HH:MM:SS`, so the `parseInt` fallback to 0 is never hit). -/
def formatEstTime (starttime : String) : String :=
  let parts := splitOnChar ':' starttime.data
  let hour := (parseIntL (parts.headD [])).getD 0
  let minute := (parseIntL ((parts.drop 1).headD [])).getD 0
  let h := if hour > 12 then hour - 12 else if hour = 0 then 12 else hour
  let period := if hour ≥ 12 then "pm" else "am"
  toString h ++ ":" ++ String.mk (pad2 minute) ++ period

/-- `roomName.includes('045') ? 'LL' : parseInt(roomNum.charAt(0)) || 1`. -/
def roomFloor (roomName roomNum : String) : FloorLabel :=
  if containsSub roomName.data "045".data then FloorLabel.ll
  else match roomNum.data.head? with
    | some c =>
      if isDigitCh c then
        FloorLabel.num (if digitVal c = 0 then 1 else digitVal c)
      else FloorLabel.num 1
    | none => FloorLabel.num 1

structure OsuRoomAccum where
  name : String
  fullName : String
  capacity : Nat
  floor : FloorLabel
  amenities : List String
  slots : List RoomSlot
deriving DecidableEq, Repr

/-- In-place update of one binding (JS property assignment on a room that
is already present). -/
def aupdate {β : Type} (l : List (String × β)) (k : String) (f : β → β) :
    List (String × β) :=
  l.map fun p => if p.1 = k then (p.1, f p.2) else p

def osuAmenities (slot : OsuSlotRec) : List String :=
  (if slot.whiteboard then ["whiteboard"] else []) ++
  (if slot.hdtv then ["monitor"] else []) ++
  (if slot.videoConferencing then ["video-conf"] else [])

/-- One iteration of the `timeslots.forEach` body: skip hidden rooms,
create the room record on first sight (insertion order preserved), append
the slot only when the upstream marks it open. -/
def osuInsertSlot (acc : List (String × OsuRoomAccum)) (slot : OsuSlotRec) :
    List (String × OsuRoomAccum) :=
  if slot.roomHide then acc
  else
    let roomNum := extractRoomNumber slot.roomName
    let acc2 := match alookup acc roomNum with
      | some _ => acc
      | none => acc ++ [(roomNum,
          { name := roomNum, fullName := slot.roomName,
            capacity := slot.maximumCapacity,
            floor := roomFloor slot.roomName roomNum,
            amenities := osuAmenities slot, slots := [] })]
    if slot.isOpen then
      aupdate acc2 roomNum fun r =>
        { r with slots := r.slots ++
            [{ time := formatEstTime slot.starttime, available := !slot.taken,
               starttime := some slot.starttime }] }
    else acc2

def buildOsuAccum (rds : List OsuRoomData) : List (String × OsuRoomAccum) :=
  rds.foldl (fun acc rd => rd.timeslots.foldl osuInsertSlot acc) []

/-- Numeric-aware string comparison (`localeCompare` with
`{numeric: true}`): maximal digit runs compare by value, other characters
by code point.  The fuel argument only bounds the scan. -/
def natCmpF : Nat → List Char → List Char → Ordering
  | 0, _, _ => Ordering.eq
  | _, [], [] => Ordering.eq
  | _, [], _ :: _ => Ordering.lt
  | _, _ :: _, [] => Ordering.gt
  | fuel + 1, a :: as, b :: bs =>
    if isDigitCh a && isDigitCh b then
      let da := (a :: as).takeWhile isDigitCh
      let db := (b :: bs).takeWhile isDigitCh
      match compare (digitsVal da) (digitsVal db) with
      | Ordering.eq => natCmpF fuel ((a :: as).drop da.length) ((b :: bs).drop db.length)
      | o => o
    else match compare a.toNat b.toNat with
      | Ordering.eq => natCmpF fuel as bs
      | o => o

def natCmp (a b : String) : Ordering := natCmpF (a.data.length + 1) a.data b.data

/-- Stable sort by a boolean "less or equal" (the array sort is stable; a
new element goes after every earlier element it does not strictly
precede). -/
def insertAfterLe {α : Type} (le : α → α → Bool) (x : α) : List α → List α
  | [] => [x]
  | y :: ys => if le y x then y :: insertAfterLe le x ys else x :: y :: ys

def sortByB {α : Type} (le : α → α → Bool) (l : List α) : List α :=
  l.foldl (fun acc x => insertAfterLe le x acc) []

/-- The room assembly of `fetchOsuApi`: values in first-seen order, rooms
sorted numeric-aware by name, each room's slots sorted by raw start
time. -/
def buildOsuRooms (rds : List OsuRoomData) : List Room :=
  let vals := (buildOsuAccum rds).map (·.2)
  let sorted := sortByB (fun a b => !(natCmp a.name b.name = Ordering.gt)) vals
  sorted.map fun r =>
    { name := r.name, fullName := some r.fullName, capacity := r.capacity,
      floor := r.floor, amenities := r.amenities,
      slots := sortByB
        (fun a b => decide ((a.starttime.getD "") ≤ (b.starttime.getD ""))) r.slots }

/-- The failure taxonomy of `fetchOsuApi`'s `try` body, in evaluation
order: network rejection, non-2xx status, JSON parse failure, unexpected
shape.  `none` means the success path runs. -/
def osuFailure (env : OsuEnv) : Option String :=
  match env.response with
  | Except.error e => some e
  | Except.ok resp =>
    if !resp.ok then some ("HTTP " ++ toString resp.status)
    else match resp.jsonBody with
      | Except.error e => some e
      | Except.ok j =>
        if j.status ≠ "success" ∨ j.locationAvailableRooms = none then
          some "Invalid API response"
        else none

/-- `fetchOsuApi(library, dateStr)`: a total function — every internal
failure is caught and returns the degraded facility; on success, the
normalized rooms, the dynamic hours (or the `{building: null, ...}`
fallback), `isLive` and no error. -/
def fetchOsuApi (lib : LibraryCfg) (env : OsuEnv) : Facility :=
  match env.response with
  | Except.error e => degradedFacility lib env.now e
  | Except.ok resp =>
    if !resp.ok then degradedFacility lib env.now ("HTTP " ++ toString resp.status)
    else match resp.jsonBody with
      | Except.error e => degradedFacility lib env.now e
      | Except.ok j =>
        if j.status ≠ "success" ∨ j.locationAvailableRooms = none then
          degradedFacility lib env.now "Invalid API response"
        else
          { cfg := lib
            hours := match env.dynamicHours with
              | some h => FacilityHours.dynamic h
              | none => FacilityHours.fallbackObj lib.hoursOpen lib.hoursClose
            rooms := buildOsuRooms (j.locationAvailableRooms.getD [])
            scrapedAt := env.now
            isLive := true
            error := none }

/-! ### Rendered-widget (HSL) adapter -/

/-- The capture groups of the title regex
`/^(\d{1,2}:\d{2}[ap]m)\s+\w+,\s+(.+?\d{4})\s+-\s+([^-]+)\s+-\s+(.+)$/i`
for one `.fc-timeline-event` element, plus its `className`.  A `none` in
the observation list is an element whose title did not match. -/
structure TitleObs where
  time : String
  dateStr : String
  roomName : String
  statusText : String
  className : String
deriving DecidableEq, Repr

structure ScrapeEnv where
  puppeteerOk : Bool
  launchResult : Except String Unit
  pageResult : Except String (List (Option TitleObs))
  closeResult : Except String Unit
  todayLong : String
  now : Nat
deriving DecidableEq, Repr

def monthName : Nat → String
  | 1 => "January" | 2 => "February" | 3 => "March" | 4 => "April"
  | 5 => "May" | 6 => "June" | 7 => "July" | 8 => "August"
  | 9 => "September" | 10 => "October" | 11 => "November" | 12 => "December"
  | _ => ""

/-- `"${targetMonth} ${targetDay}, ${targetYear}"`. -/
def formatLongDate (d : CivilDate) : String :=
  monthName d.month ++ " " ++ toString d.day ++ ", " ++ toString d.year

def targetDateStringOf (dateStr : Option String) (todayLong : String) : String :=
  match dateStr with
  | some ds =>
    match parseDate? ds with
    | some d => formatLongDate d
    | none => todayLong
  | none => todayLong

/-- The two-signal availability rule: an explicit `s-lc-eq-avail` class, or
a status text of exactly `available` with no explicit unavailable class. -/
def obsAvailable (o : TitleObs) : Bool :=
  let hasAvailClass := containsSub o.className.data "s-lc-eq-avail".data
  let hasUnavailClass := containsSub o.className.data "s-lc-eq-unavail".data ||
    containsSub o.className.data "unavailable".data
  let titleSaysAvailable := toLowerL (trimL o.statusText.data) = "available".data
  hasAvailClass || (titleSaysAvailable && !hasUnavailClass)

structure HslRoomAccum where
  name : String
  slots : List RoomSlot
  seenTimes : List String
deriving DecidableEq, Repr

/-- One iteration of the `slots.forEach` body inside `page.evaluate`:
unmatched titles and other-day bleed are skipped; the first observation of
a `(room, time)` pushes a slot; a duplicate upgrades the stored slot to
available when the new observation is available (never the reverse). -/
def hslStep (target : String) (acc : List (String × HslRoomAccum))
    (o : Option TitleObs) : List (String × HslRoomAccum) :=
  match o with
  | none => acc
  | some obs =>
    if !containsSub obs.dateStr.data target.data then acc
    else
      let room := String.mk (trimL obs.roomName.data)
      let avail := obsAvailable obs
      let acc2 := match alookup acc room with
        | some _ => acc
        | none => acc ++ [(room, ⟨room, [], []⟩)]
      aupdate acc2 room fun r =>
        if r.seenTimes.contains obs.time then
          if avail then
            { r with slots := r.slots.map fun sl =>
                if sl.time = obs.time then { sl with available := true } else sl }
          else r
        else
          { r with seenTimes := obs.time :: r.seenTimes
                   slots := r.slots ++ [{ time := obs.time, available := avail }] }

/-- Anchored `/^(\d{1,2}):(\d{2})([ap]m)$/i`, as minutes since midnight
(12-hour period folded); 0 when the string does not match — the slot sort
key inside `page.evaluate`. -/
def parseTimeMin (t : String) : Nat :=
  let conv : Nat → Nat → Char → Nat := fun h minute a =>
    let h2 := if a.toLower = 'p' && h ≠ 12 then h + 12
              else if a.toLower = 'a' && h = 12 then 0
              else h
    h2 * 60 + minute
  match t.data with
  | [d1, d2, ':', m1, m2, a, m] =>
    if isDigitCh d1 && isDigitCh d2 && isDigitCh m1 && isDigitCh m2 &&
       (a.toLower = 'a' || a.toLower = 'p') && m.toLower = 'm' then
      conv (digitsVal [d1, d2]) (digitsVal [m1, m2]) a
    else 0
  | [d1, ':', m1, m2, a, m] =>
    if isDigitCh d1 && isDigitCh m1 && isDigitCh m2 &&
       (a.toLower = 'a' || a.toLower = 'p') && m.toLower = 'm' then
      conv (digitsVal [d1]) (digitsVal [m1, m2]) a
    else 0
  | _ => 0

/-- The return value of `page.evaluate`: per room (insertion order), its
name and its slots sorted by parsed time. -/
def evalRooms (target : String) (obsList : List (Option TitleObs)) :
    List (String × List RoomSlot) :=
  ((obsList.foldl (hslStep target) []).map (·.2)).map fun r =>
    (r.name,
     sortByB (fun a b => decide (parseTimeMin a.time ≤ parseTimeMin b.time)) r.slots)

/-- The post-evaluate metadata mapping: capacity and floor from the
config's `roomInfo` (JS `|| 5` / `|| 3`: zero falls back too), fixed
amenities. -/
def hslRooms (lib : LibraryCfg) (dateStr : Option String) (todayLong : String)
    (obsList : List (Option TitleObs)) : List Room :=
  (evalRooms (targetDateStringOf dateStr todayLong) obsList).map fun r =>
    { name := r.1, fullName := none
      capacity := match alookup lib.roomInfo r.1 with
        | some ci => if ci.1 = 0 then 5 else ci.1
        | none => 5
      floor := FloorLabel.num (match alookup lib.roomInfo r.1 with
        | some ci => if ci.2 = 0 then 3 else ci.2
        | none => 3)
      amenities := ["whiteboard", "monitor"]
      slots := r.2 }

/-- `scrapeLibCal(library, dateStr)`.  A missing puppeteer module resolves
to a degraded facility; a browser **launch** failure happens *outside* the
`try`/`catch` and rejects; inside the `try`, any page failure is caught and
resolves to a degraded facility; a rejection from `browser.close()` in the
`finally` replaces the outcome. -/
def scrapeLibCal (lib : LibraryCfg) (dateStr : Option String) (env : ScrapeEnv) :
    Except String Facility :=
  if !env.puppeteerOk then
    Except.ok (degradedFacility lib env.now "Puppeteer not installed")
  else
    match env.launchResult with
    | Except.error e => Except.error e
    | Except.ok _ =>
      let body : Facility :=
        match env.pageResult with
        | Except.error e => degradedFacility lib env.now e
        | Except.ok obsList =>
          { cfg := lib
            hours := FacilityHours.staticPair lib.hoursOpen lib.hoursClose
            rooms := hslRooms lib dateStr env.todayLong obsList
            scrapedAt := env.now
            isLive := true
            error := none }
      match env.closeResult with
      | Except.error e => Except.error e
      | Except.ok _ => Except.ok body

/-! ### The orchestrating fan-out (`Promise.all` over `LIBRARIES`) -/

inductive AdapterEnv where
  | osu (e : OsuEnv)
  | scrape (e : ScrapeEnv)
deriving DecidableEq, Repr

/-- A raw config returned untouched (`return library`): unreachable for the
shipped configuration, whose entries are all `osu-api` or `libcal`. -/
def rawFacility (lib : LibraryCfg) : Facility :=
  { cfg := lib, hours := FacilityHours.staticPair lib.hoursOpen lib.hoursClose,
    rooms := [], scrapedAt := 0, isLive := false, error := none }

/-- The per-library dispatch inside the population's `Promise.all`. -/
def fetchLibrary (ds : Option String) (lib : LibraryCfg) (env : AdapterEnv) :
    Except String Facility :=
  if lib.type = "osu-api" then
    match env with
    | AdapterEnv.osu e => Except.ok (fetchOsuApi lib e)
    | AdapterEnv.scrape _ => Except.ok (rawFacility lib)
  else if lib.type = "libcal" then
    match env with
    | AdapterEnv.scrape e => scrapeLibCal lib ds e
    | AdapterEnv.osu _ => Except.ok (rawFacility lib)
  else Except.ok (rawFacility lib)

/-- `Promise.all`: the list of results, or a rejection when any member
rejects (the value is the first rejection in list order; which rejection
wins in JS depends on settlement timing, but the claims only need that the
whole snapshot fails). -/
def promiseAll {α : Type} : List (Except String α) → Except String (List α)
  | [] => Except.ok []
  | Except.ok a :: rest => (promiseAll rest).map (a :: ·)
  | Except.error e :: _ => Except.error e

/-- The population round of `getAllLibraryData`: one adapter call per
configured library, each with its own environment. -/
def populateAll (ds : Option String) (libs : List LibraryCfg)
    (envs : List AdapterEnv) : Except String (List Facility) :=
  promiseAll ((libs.zip envs).map fun p => fetchLibrary ds p.1 p.2)

/-- An environment whose adapter call resolves (rather than rejects): any
OSU environment, and a scrape environment whose browser launch and close
succeed (or whose puppeteer import fails, which resolves degraded). -/
def envSafe : AdapterEnv → Prop
  | AdapterEnv.osu _ => True
  | AdapterEnv.scrape e =>
    e.puppeteerOk = false ∨
      (e.launchResult = Except.ok () ∧ e.closeResult = Except.ok ())

instance : DecidablePred envSafe := fun e =>
  match e with
  | AdapterEnv.osu _ => isTrue trivial
  | AdapterEnv.scrape _ => by unfold envSafe; infer_instance

/-- The resolved facility of a safe adapter call. -/
def fetchLibraryOk (ds : Option String) (lib : LibraryCfg) (env : AdapterEnv) :
    Facility :=
  match fetchLibrary ds lib env with
  | Except.ok f => f
  | Except.error e => degradedFacility lib 0 e

/-! ### Adapter lemmas and the C2 / C9 claims -/

theorem fetchOsuApi_failure (lib : LibraryCfg) (env : OsuEnv) (msg : String)
    (h : osuFailure env = some msg) :
    fetchOsuApi lib env = degradedFacility lib env.now msg := by
  unfold osuFailure at h
  unfold fetchOsuApi
  rcases hr : env.response with e | resp <;> rw [hr] at h
  · injection h with h
    rw [h]
  · cases hok : resp.ok <;> simp only [hok] at h ⊢
    · simp only [Bool.not_false, if_true] at h ⊢
      injection h with h
      rw [h]
    · simp only [Bool.not_true, Bool.false_eq_true, if_false] at h ⊢
      rcases hj : resp.jsonBody with e | j <;> rw [hj] at h
      · injection h with h
        rw [h]
      · by_cases hs : j.status ≠ "success" ∨ j.locationAvailableRooms = none
        · simp only [hs, if_true] at h ⊢
          injection h with h
          rw [h]
        · simp only [hs, if_false] at h
          cases h

theorem fetchOsuApi_ok (lib : LibraryCfg) (env : OsuEnv)
    (h : osuFailure env = none) :
    (fetchOsuApi lib env).error = none ∧ (fetchOsuApi lib env).isLive = true := by
  unfold osuFailure at h
  unfold fetchOsuApi
  rcases hr : env.response with e | resp <;> rw [hr] at h
  · cases h
  · cases hok : resp.ok <;> simp only [hok] at h ⊢
    · simp only [Bool.not_false, if_true] at h
      cases h
    · simp only [Bool.not_true, Bool.false_eq_true, if_false] at h ⊢
      rcases hj : resp.jsonBody with e | j <;> rw [hj] at h
      · cases h
      · by_cases hs : j.status ≠ "success" ∨ j.locationAvailableRooms = none
        · simp only [hs, if_true] at h
          cases h
        · simp [hs]

theorem scrapeLibCal_resolves (lib : LibraryCfg) (ds : Option String)
    (env : ScrapeEnv)
    (h : env.puppeteerOk = false ∨
      (env.launchResult = Except.ok () ∧ env.closeResult = Except.ok ())) :
    ∃ f, scrapeLibCal lib ds env = Except.ok f := by
  unfold scrapeLibCal
  rcases h with hp | ⟨hl, hc⟩
  · rw [hp]
    exact ⟨_, rfl⟩
  · cases hpp : env.puppeteerOk
    · exact ⟨_, rfl⟩
    · simp only [Bool.not_true, Bool.false_eq_true, if_false]
      rw [hl, hc]
      exact ⟨_, rfl⟩

theorem fetchLibrary_safe (ds : Option String) (lib : LibraryCfg)
    (env : AdapterEnv) (h : envSafe env) :
    ∃ f, fetchLibrary ds lib env = Except.ok f := by
  unfold fetchLibrary
  rcases env with e | e
  · by_cases h1 : lib.type = "osu-api"
    · simp only [h1, if_true]
      exact ⟨_, rfl⟩
    · by_cases h2 : lib.type = "libcal" <;> simp only [h1, h2, if_true, if_false] <;>
        exact ⟨_, rfl⟩
  · by_cases h1 : lib.type = "osu-api"
    · simp only [h1, if_true]
      exact ⟨_, rfl⟩
    · by_cases h2 : lib.type = "libcal" <;> simp only [h1, h2, if_true, if_false]
      · exact scrapeLibCal_resolves lib ds e h
      · exact ⟨_, rfl⟩

theorem promiseAll_cons_ok {α : Type} (a : α) (l : List (Except String α)) :
    promiseAll (Except.ok a :: l) = (promiseAll l).map (a :: ·) := rfl

theorem populateAll_safe (ds : Option String) (libs : List LibraryCfg) :
    ∀ envs : List AdapterEnv, (∀ e ∈ envs, envSafe e) →
    populateAll ds libs envs
      = Except.ok ((libs.zip envs).map fun p => fetchLibraryOk ds p.1 p.2) := by
  induction libs with
  | nil => intro envs _; rfl
  | cons lib libs ih =>
    intro envs h
    cases envs with
    | nil => rfl
    | cons env envs =>
      obtain ⟨f, hf⟩ := fetchLibrary_safe ds lib env (h env (by simp))
      have hok : fetchLibraryOk ds lib env = f := by
        unfold fetchLibraryOk
        rw [hf]
      have ht := ih envs (fun e he => h e (by simp [he]))
      unfold populateAll at ht ⊢
      simp only [List.zip_cons_cons, List.map_cons, hf, promiseAll_cons_ok, ht,
        Except.map, hok]

def c2BadScrape : ScrapeEnv :=
  ⟨true, Except.error "spawn chromium ENOENT", Except.ok [], Except.ok (),
   "January 21, 2026", 500⟩

def c2OsuDown : OsuEnv := ⟨Except.error "network down", none, 400⟩

/-- **C2** counterexample.  A browser *launch* failure happens outside
`scrapeLibCal`'s `try`/`catch`: the adapter rejects instead of returning a
degraded `Facility`, and the whole population round (`Promise.all` over the
four configured libraries) rejects with it — refuting "never raises past
its own boundary ... (browser failure) ... never fails the overall
snapshot". -/
theorem C2_counterexample :
    scrapeLibCal libHsl none c2BadScrape = Except.error "spawn chromium ENOENT" ∧
    populateAll none LIBRARIES
        [AdapterEnv.osu c2OsuDown, AdapterEnv.osu c2OsuDown,
         AdapterEnv.osu c2OsuDown, AdapterEnv.scrape c2BadScrape]
      = Except.error "spawn chromium ENOENT" := by
  exact ⟨rfl, rfl⟩

/-- **C2** (corrected).  (1) `fetchOsuApi` never raises: any internal
failure (network rejection, bad HTTP status, malformed JSON, unexpected
shape) returns a `Facility` with empty rooms and the failure message in its
`error` field, and the success path returns `error = none`;
(2) `scrapeLibCal` resolves degraded when the puppeteer import fails and
when any page-phase failure (navigation, scrape timeout, evaluation)
occurs *after a successful browser launch*, but a launch failure rejects
(see the counterexample); (3) when every environment resolves, the
snapshot is the pointwise list of per-library results — facility `i`
depends only on library `i`'s own environment, so one source's (resolved)
failure degrades only its own facility. -/
theorem C2_failure_isolation :
    (∀ (lib : LibraryCfg) (env : OsuEnv) (msg : String),
        osuFailure env = some msg →
        fetchOsuApi lib env = degradedFacility lib env.now msg ∧
        (fetchOsuApi lib env).rooms = [] ∧
        (fetchOsuApi lib env).error = some msg) ∧
    (∀ (lib : LibraryCfg) (env : OsuEnv), osuFailure env = none →
        (fetchOsuApi lib env).error = none ∧ (fetchOsuApi lib env).isLive = true) ∧
    (∀ (lib : LibraryCfg) (ds : Option String) (env : ScrapeEnv),
        env.puppeteerOk = false →
        scrapeLibCal lib ds env
          = Except.ok (degradedFacility lib env.now "Puppeteer not installed")) ∧
    (∀ (lib : LibraryCfg) (ds : Option String) (env : ScrapeEnv) (e : String),
        env.puppeteerOk = true → env.launchResult = Except.ok () →
        env.closeResult = Except.ok () → env.pageResult = Except.error e →
        scrapeLibCal lib ds env = Except.ok (degradedFacility lib env.now e)) ∧
    (∀ (lib : LibraryCfg) (ds : Option String) (env : ScrapeEnv)
        (obsList : List (Option TitleObs)),
        env.puppeteerOk = true → env.launchResult = Except.ok () →
        env.closeResult = Except.ok () → env.pageResult = Except.ok obsList →
        scrapeLibCal lib ds env = Except.ok
          { cfg := lib
            hours := FacilityHours.staticPair lib.hoursOpen lib.hoursClose
            rooms := hslRooms lib ds env.todayLong obsList
            scrapedAt := env.now
            isLive := true
            error := none }) ∧
    (∀ (ds : Option String) (libs : List LibraryCfg) (envs : List AdapterEnv),
        (∀ e ∈ envs, envSafe e) →
        populateAll ds libs envs
          = Except.ok ((libs.zip envs).map fun p => fetchLibraryOk ds p.1 p.2)) := by
  refine ⟨?_, fetchOsuApi_ok, ?_, ?_, ?_, fun ds libs envs h => populateAll_safe ds libs envs h⟩
  · intro lib env msg h
    have heq := fetchOsuApi_failure lib env msg h
    exact ⟨heq, by rw [heq]; rfl, by rw [heq]; rfl⟩
  · intro lib ds env hp
    unfold scrapeLibCal
    rw [hp]
    rfl
  · intro lib ds env e hp hl hc hpage
    unfold scrapeLibCal
    rw [hp, hl, hc, hpage]
    rfl
  · intro lib ds env obsList hp hl hc hpage
    unfold scrapeLibCal
    rw [hp, hl, hc, hpage]
    rfl

def c2OkScrape : ScrapeEnv :=
  ⟨true, Except.ok (), Except.error "target closed", Except.ok (),
   "January 21, 2026", 500⟩

/-- **C2** witness: a network failure degrades an OSU facility in place; a
scrape-phase failure after a successful launch degrades the HSL facility;
and a population round over the four configured libraries with these
environments still resolves to four facilities. -/
theorem C2_failure_isolation_witness :
    (osuFailure c2OsuDown = some "network down" ∧
     c2OkScrape.puppeteerOk = true ∧ c2OkScrape.launchResult = Except.ok () ∧
     c2OkScrape.closeResult = Except.ok () ∧
     c2OkScrape.pageResult = Except.error "target closed" ∧
     (∀ e ∈ [AdapterEnv.osu c2OsuDown, AdapterEnv.osu c2OsuDown,
             AdapterEnv.osu c2OsuDown, AdapterEnv.scrape c2OkScrape], envSafe e)) ∧
    fetchOsuApi libFaes c2OsuDown = degradedFacility libFaes 400 "network down" ∧
    scrapeLibCal libHsl none c2OkScrape
      = Except.ok (degradedFacility libHsl 500 "target closed") ∧
    populateAll none LIBRARIES
        [AdapterEnv.osu c2OsuDown, AdapterEnv.osu c2OsuDown,
         AdapterEnv.osu c2OsuDown, AdapterEnv.scrape c2OkScrape]
      = Except.ok ((LIBRARIES.zip
          [AdapterEnv.osu c2OsuDown, AdapterEnv.osu c2OsuDown,
           AdapterEnv.osu c2OsuDown, AdapterEnv.scrape c2OkScrape]).map
          fun p => fetchLibraryOk none p.1 p.2) :=
  ⟨⟨rfl, rfl, rfl, rfl, rfl, by decide⟩,
   (C2_failure_isolation.1 libFaes c2OsuDown "network down" rfl).1,
   C2_failure_isolation.2.2.2.1 libHsl none c2OkScrape "target closed"
     rfl rfl rfl rfl,
   C2_failure_isolation.2.2.2.2.2 none LIBRARIES
     [AdapterEnv.osu c2OsuDown, AdapterEnv.osu c2OsuDown,
      AdapterEnv.osu c2OsuDown, AdapterEnv.scrape c2OkScrape] (by decide)⟩

theorem obsAvailable_available (tm d r : String) :
    obsAvailable ⟨tm, d, r, "Available", ""⟩ = true := rfl

theorem obsAvailable_booked (tm d r : String) :
    obsAvailable ⟨tm, d, r, "Booked", ""⟩ = false := rfl

/-- **C9** (confirmed).  Rendered-widget slot deduplication: two
observations for the same `(room, time)` key (both matching the target
date) produce exactly one room entry with exactly one slot, and that slot
is available iff at least one observation was — unavailable-then-available
upgrades, available-then-unavailable stays available. -/
theorem C9_slot_dedup (r t d target : String) (a1 a2 : Bool)
    (hd : containsSub d.data target.data = true) :
    evalRooms target
        [some ⟨t, d, r, if a1 then "Available" else "Booked", ""⟩,
         some ⟨t, d, r, if a2 then "Available" else "Booked", ""⟩]
      = [(String.mk (trimL r.data), [{ time := t, available := a1 || a2 }])] := by
  cases a1 <;> cases a2 <;>
    simp [evalRooms, hslStep, hd, obsAvailable_available, obsAvailable_booked,
      aupdate, sortByB, insertAfterLe]

/-- **C9** witness: the two orders on a concrete room and time. -/
theorem C9_slot_dedup_witness :
    containsSub "Wednesday, January 21, 2026".data "January 21, 2026".data = true ∧
    evalRooms "January 21, 2026"
        [some ⟨"1:30pm", "Wednesday, January 21, 2026", "360H", "Booked", ""⟩,
         some ⟨"1:30pm", "Wednesday, January 21, 2026", "360H", "Available", ""⟩]
      = [("360H", [{ time := "1:30pm", available := true }])] ∧
    evalRooms "January 21, 2026"
        [some ⟨"1:30pm", "Wednesday, January 21, 2026", "360H", "Available", ""⟩,
         some ⟨"1:30pm", "Wednesday, January 21, 2026", "360H", "Booked", ""⟩]
      = [("360H", [{ time := "1:30pm", available := true }])] :=
  ⟨by decide,
   C9_slot_dedup "360H" "1:30pm" "Wednesday, January 21, 2026" "January 21, 2026"
     false true (by decide),
   C9_slot_dedup "360H" "1:30pm" "Wednesday, January 21, 2026" "January 21, 2026"
     true false (by decide)⟩

end LibrarySpot
